import Mathlib

/-!
Shallow embedding of the openemr-rips-generator core
(`src/server/rips-validator.ts`, `src/server/rips-generator.ts`,
`src/server/rips.ts` direct pipeline, `src/server/rips-helper.ts`)
together with theorems settling the specification claims.

JavaScript runtime behaviour that the code depends on (truthiness,
`undefined` vs `null`, `Array.isArray`, string `.length`, `Map` last-write-
wins semantics, `Math.floor` of a real division) is modelled explicitly.
`Date` parsing and ISO formatting are modelled as oracles (parameters),
since they depend on the ambient clock and the JS date parser.
-/

/-- A JavaScript value as handled by the validator/generator (documents are
`any`-typed in the source).  Numbers are modelled as integers: every number
the generator itself produces is an integer, and the claims do not depend
on fractional values.  `undefined` (JS `undefined`, in particular an absent
object property) is distinct from `null`. -/
inductive JVal where
  | undefined : JVal
  | null : JVal
  | bool : Bool → JVal
  | num : Int → JVal
  | str : String → JVal
  | arr : List JVal → JVal
  | obj : List (String × JVal) → JVal

namespace JVal

/-- JS property access `v[k]`: last-written key wins (object literals in the
source never repeat keys, but spread-merges do); absent key or non-object
gives `undefined`. -/
def get (v : JVal) (k : String) : JVal :=
  match v with
  | .obj fields => fields.foldl (fun acc p => if p.1 = k then p.2 else acc) .undefined
  | _ => .undefined

/-- JS truthiness: `undefined`, `null`, `false`, `0`, `""` are falsy. -/
def truthy : JVal → Bool
  | .undefined => false
  | .null => false
  | .bool b => b
  | .num n => n ≠ 0
  | .str s => s ≠ ""
  | .arr _ => true
  | .obj _ => true

/-- Models `Array.isArray`. -/
def isArray : JVal → Bool
  | .arr _ => true
  | _ => false

/-- Models `typeof v === "string"`. -/
def isString : JVal → Bool
  | .str _ => true
  | _ => false

/-- JS `.length` of a value, when it has one (strings and arrays);
`none` models the `undefined` result of `.length` on other values. -/
def length? : JVal → Option Nat
  | .str s => some s.length
  | .arr xs => some xs.length
  | _ => none

/-- JS string coercion as used in template literals and `String(v)`. -/
def display : JVal → String
  | .undefined => "undefined"
  | .null => "null"
  | .bool b => if b then "true" else "false"
  | .num n => toString n
  | .str s => s
  | .arr _ => ""
  | .obj _ => "[object Object]"

end JVal

/-- Models `v.length > k` under JS semantics: `undefined > k` is false. -/
def jsLengthGt (v : JVal) (k : Nat) : Bool :=
  match v.length? with
  | some n => n > k
  | none => false

/-- Models `v.length < k` under JS semantics: `undefined < k` is false. -/
def jsLengthLt (v : JVal) (k : Nat) : Bool :=
  match v.length? with
  | some n => n < k
  | none => false

/-- Models `v.length !== k` under JS strict inequality: `undefined !== k` is true. -/
def jsLengthNe (v : JVal) (k : Nat) : Bool :=
  match v.length? with
  | some n => n ≠ k
  | none => true

/-- Models `list.includes(v)` for a list of string constants: strict equality, so a
non-string value is never a member. -/
def jsIncludes (xs : List String) (v : JVal) : Bool :=
  match v with
  | .str s => xs.contains s
  | _ => false

/-- JS numeric coercion for relational comparison (`v < 0` etc.); `none`
models `NaN` so that every comparison with it is false.  Strings are parsed
as (optionally signed) decimal integers, the empty string coerces to 0, and
other non-numeric strings give `NaN`; fractional literals do not occur in
the documents this code builds. -/
def jsToNumber : JVal → Option Int
  | .undefined => none
  | .null => some 0
  | .bool b => some (if b then 1 else 0)
  | .num n => some n
  | .str s =>
      if s = "" then some 0
      else if s.all Char.isDigit then some (s.toNat!)
      else if s.startsWith "-" ∧ (s.drop 1) ≠ "" ∧ (s.drop 1).all Char.isDigit then
        some (-(Int.ofNat (s.drop 1).toNat!))
      else none
  | .arr _ => none
  | .obj _ => none

/-- Models `v < 0` under JS coercion (false when the coercion yields NaN). -/
def jsLtZero (v : JVal) : Bool :=
  match jsToNumber v with
  | some n => n < 0
  | none => false

/-- Models `v > 999` under JS coercion. -/
def jsGt999 (v : JVal) : Bool :=
  match jsToNumber v with
  | some n => n > 999
  | none => false

/-- Models `Number.isInteger(v)`: no coercion; all modelled numbers are integers. -/
def jsIsInteger : JVal → Bool
  | .num _ => true
  | _ => false

/-- Models `/^\d+$/.test(v)` (the regex test coerces its argument to a string). -/
def jsAllDigits : JVal → Bool
  | .str s => s ≠ "" && s.all Char.isDigit
  | .num n => decide (0 ≤ n)
  | _ => false

/-- The result of the JS age computation: an integer, or `NaN`
(when the date string fails to parse). -/
inductive AgeVal where
  | int : Int → AgeVal
  | nan : AgeVal
  deriving Repr, DecidableEq

/-- Oracle for the ambient JS date environment used by the validator:
`parseMs s` models `new Date(s).getTime()` / `Date.parse(s)`
(`none` = `NaN`, i.e. unparseable), `nowMs` models `new Date().getTime()`
at validation time. -/
structure DateEnv where
  parseMs : String → Option Int
  nowMs : Int

/-- Models `new Date(v).getTime()` for a JS value: strings go through the parser,
numbers are millisecond timestamps; other inputs (which the validator never
reaches with, since they are filtered by truthiness or produce `NaN`)
give `NaN`. -/
def DateEnv.valueMs (env : DateEnv) : JVal → Option Int
  | .str s => env.parseMs s
  | .num n => some n
  | _ => none

/-- Milliseconds in 365.25 days: `1000*60*60*24*365.25 = 31557600000`. -/
def msPerYear : Int := 31557600000

/-- Models `calculateAge` (rips-validator.ts:12-17): `-1` for falsy input, else
`Math.floor((now - parsed) / msPerYear)`; `NaN` when parsing fails.
`Math.floor` of an exact rational is floor division. -/
def calculateAge (env : DateEnv) (dobStr : JVal) : AgeVal :=
  if ¬ dobStr.truthy then .int (-1)
  else
    match env.valueMs dobStr with
    | none => .nan
    | some t => .int (Int.fdiv (env.nowMs - t) msPerYear)

/-- Finding severity (rips-validator.ts:8). -/
inductive Severity where
  | error : Severity
  | warning : Severity
  deriving Repr, DecidableEq

/-- Models `ValidationError` (rips-validator.ts:3-9). -/
structure ValidationError where
  scope : String
  field : String
  message : String
  value : JVal
  severity : Severity

/-- Display of a computed age inside a template literal. -/
def AgeVal.display : AgeVal → String
  | .int n => toString n
  | .nan => "NaN"

/-- Models `age < k` (false for NaN). -/
def AgeVal.ltJ : AgeVal → Int → Bool
  | .int n, k => n < k
  | .nan, _ => false

/-- Models `age >= k` (false for NaN). -/
def AgeVal.geJ : AgeVal → Int → Bool
  | .int n, k => n ≥ k
  | .nan, _ => false

/-- Models `age > k` (false for NaN). -/
def AgeVal.gtJ : AgeVal → Int → Bool
  | .int n, k => n > k
  | .nan, _ => false

/-- Models `age <= k` (false for NaN). -/
def AgeVal.leJ : AgeVal → Int → Bool
  | .int n, k => n ≤ k
  | .nan, _ => false

/-- Models `age === -1` (strict; false for NaN). -/
def AgeVal.isNegOne : AgeVal → Bool
  | .int n => n = -1
  | .nan => false

namespace Validator

/-- Reference tables (rips-validator.ts:20-27). -/
def VALID_DOCUMENT_TYPES : List String :=
  ["CC", "CE", "CD", "PA", "SC", "PE", "RC", "TI", "CN", "AS", "MS", "DE", "SI", "PT"]

def VALID_USER_TYPES : List String :=
  ["01", "02", "03", "04", "05", "06", "07", "08", "09", "10", "11", "12", "13"]

def VALID_SEX_CODES : List String := ["M", "F", "I"]

def VALID_MODALITIES : List String := ["01", "02", "03", "04", "06", "07", "08", "09"]

def VALID_SERVICE_GROUPS : List String := ["01", "02", "03", "04", "05"]

def VALID_CAUSES : List String := ["21", "22", "23", "24", "25", "26", "27", "28", "29", "30", "38"]

def VALID_DIAG_TYPES : List String := ["01", "02", "03"]

def VALID_CONCEPTO_RECAUDO : List String := ["01", "02", "03", "04", "05"]

/-- One row of the `DOC_LENGTHS` table (rips-validator.ts:30-45); `fixed` is
declared in the source type but never populated nor read. -/
structure LenRule where
  min : Option Nat := none
  max : Nat

/-- Models `DOC_LENGTHS[docType]` (a JS object lookup: non-string keys miss). -/
def docLengths (docType : JVal) : Option LenRule :=
  match docType with
  | .str "CC" => some { max := 10 }
  | .str "CE" => some { max := 6 }
  | .str "CD" => some { max := 16 }
  | .str "PA" => some { max := 16 }
  | .str "SC" => some { max := 16 }
  | .str "PE" => some { max := 15 }
  | .str "RC" => some { max := 11 }
  | .str "TI" => some { max := 11 }
  | .str "CN" => some { min := some 9, max := 20 }
  | .str "AS" => some { max := 10 }
  | .str "MS" => some { max := 12 }
  | .str "DE" => some { max := 20 }
  | .str "PT" => some { max := 20 }
  | .str "SI" => some { max := 20 }
  | _ => none

/-- Models `errors.push(e)` guarded by a condition: emit `[e]` when it holds. -/
def errIf (b : Bool) (e : ValidationError) : List ValidationError :=
  if b then [e] else []

/-- Models `v === null` (strict). -/
def isNullJ : JVal → Bool
  | .null => true
  | _ => false

/-- Models `v === s` (strict equality against a string literal). -/
def isStrJ (v : JVal) (s : String) : Bool :=
  match v with
  | .str t => t = s
  | _ => false

/-- Models `isNaN(Date.parse(v))` via the date oracle; non-string values coerce to
strings that do not parse. -/
def dateParseIsNaN (env : DateEnv) (v : JVal) : Bool :=
  match v with
  | .str s => (env.parseMs s).isNone
  | _ => true

/-- Transaction-level checks T01-T03 (rips-validator.ts:57-81),
run once the `transaccion` object is truthy. -/
def transErrors (trans : JVal) : List ValidationError :=
  let t01 := trans.get "numDocumentoIdObligado"
  let numFactura := trans.get "numFactura"
  let t03 := trans.get "tipoNota"
  errIf (¬ t01.truthy || jsLengthLt t01 4 || jsLengthGt t01 12)
    ⟨"Transaction", "numDocumentoIdObligado", "Must be between 4 and 12 characters", t01, .error⟩
  ++ errIf (¬ isNullJ numFactura && ¬ numFactura.isString)
    ⟨"Transaction", "numFactura", "Must be a string or null", numFactura, .error⟩
  ++ (if ¬ isNullJ t03 then
        errIf (¬ t03.isString || jsLengthGt t03 2)
          ⟨"Transaction", "tipoNota", "Must be a string max 2 chars or null", t03, .error⟩
        ++ errIf (¬ numFactura.truthy && ¬ isStrJ t03 "RS")
          ⟨"Transaction", "tipoNota",
            "For RIPS without FEV (no invoice number), tipoNota should be \x27RS\x27", t03, .warning⟩
      else [])

/-- U02 document-number checks (rips-validator.ts:101-119). -/
def docNumErrors (scope : String) (docType docNum : JVal) : List ValidationError :=
  if ¬ docNum.truthy then
    [⟨scope, "numDocumentoIdentificacion", "Missing Document Number", docNum, .error⟩]
  else
    errIf ((isStrJ docType "CC" || isStrJ docType "TI") && ¬ jsAllDigits docNum)
      ⟨scope, "numDocumentoIdentificacion", "Must differ contain only numbers for CC/TI", docNum, .error⟩
    ++ (match docLengths docType with
        | some rules =>
            errIf (jsLengthGt docNum rules.max)
              ⟨scope, "numDocumentoIdentificacion",
                "Max length exceeded (Max: " ++ toString rules.max ++ ")", docNum, .error⟩
            ++ (match rules.min with
                | some mn =>
                    errIf (jsLengthLt docNum mn)
                      ⟨scope, "numDocumentoIdentificacion",
                        "Min length not met (Min: " ++ toString mn ++ ")", docNum, .error⟩
                | none => [])
        | none => [])

/-- Age-vs-document-type band checks (rips-validator.ts:140-185); reached
only when `age !== -1`; every comparison is false on NaN. -/
def ageBandErrors (scope : String) (docType : JVal) (age : AgeVal) : List ValidationError :=
  let v : JVal := .str ("Age: " ++ age.display ++ ", Type: " ++ docType.display)
  if isStrJ docType "CC" then
    errIf (age.ltJ 18) ⟨scope, "tipoDocumentoIdentificacion", "CC is for >= 18 years old", v, .error⟩
  else if isStrJ docType "TI" then
    errIf (age.ltJ 7) ⟨scope, "tipoDocumentoIdentificacion", "TI is for >= 7 years old", v, .error⟩
    ++ errIf (age.geJ 19) ⟨scope, "tipoDocumentoIdentificacion", "TI is invalid for >= 19 years old", v, .error⟩
  else if isStrJ docType "RC" then
    errIf (age.geJ 8) ⟨scope, "tipoDocumentoIdentificacion", "RC is invalid for >= 8 years old", v, .error⟩
  else if isStrJ docType "CN" then
    errIf (age.gtJ 3) ⟨scope, "tipoDocumentoIdentificacion", "CN is for <= 3 years old", v, .error⟩
  else if isStrJ docType "AS" then
    errIf (age.leJ 18) ⟨scope, "tipoDocumentoIdentificacion", "AS is for > 18 years old", v, .error⟩
  else if isStrJ docType "MS" then
    errIf (age.gtJ 18) ⟨scope, "tipoDocumentoIdentificacion", "MS is for minors (<= 18)", v, .error⟩
  else []

/-- Date-of-birth / age logic (rips-validator.ts:121-186). -/
def dobErrors (env : DateEnv) (scope : String) (user : JVal) : List ValidationError :=
  let dob := user.get "fechaNacimiento"
  let age := calculateAge env dob
  if age.isNegOne then
    [⟨scope, "fechaNacimiento", "Invalid or missing Date of Birth", dob, .error⟩]
  else
    ageBandErrors scope (user.get "tipoDocumentoIdentificacion") age

/-- U07 municipality checks (rips-validator.ts:198-206). -/
def municipalityErrors (scope : String) (user : JVal) : List ValidationError :=
  if isStrJ (user.get "codPaisResidencia") "170" then
    if ¬ (user.get "codMunicipioResidencia").truthy then
      [⟨scope, "codMunicipioResidencia", "Municipality required for Colombia",
        user.get "codMunicipioResidencia", .error⟩]
    else
      errIf (jsLengthNe (user.get "codMunicipioResidencia") 5)
        ⟨scope, "codMunicipioResidencia", "Municipality code must be 5 characters",
          user.get "codMunicipioResidencia", .error⟩
  else []

/-- The per-user scope label (rips-validator.ts:90). -/
def userScope (user : JVal) (index : Nat) : String :=
  let cons := user.get "consecutivo"
  "User " ++ (if cons.truthy then cons.display else toString (index + 1))
  ++ " (" ++ (user.get "tipoDocumentoIdentificacion").display
  ++ " " ++ (user.get "numDocumentoIdentificacion").display ++ ")"

/-- Scope label of the i-th item of a service list (rips-validator.ts:226). -/
def itemScope (userScope label : String) (i : Nat) (item : JVal) : String :=
  let cons := item.get "consecutivo"
  userScope ++ " > " ++ label ++ " "
  ++ (if cons.truthy then cons.display else toString (i + 1))

/-- Checks of one consultation record (rips-validator.ts:225-286). -/
def consultaErrors (env : DateEnv) (uScope : String) (i : Nat) (c : JVal) : List ValidationError :=
  let scope := itemScope uScope "Consulta" i c
  (if ¬ (c.get "codPrestador").truthy then
      [⟨scope, "codPrestador", "Required", .null, .error⟩]
    else
      errIf (jsLengthNe (c.get "codPrestador") 12)
        ⟨scope, "codPrestador", "Must be exactly 12 characters", c.get "codPrestador", .error⟩)
  ++ (if ¬ (c.get "fechaInicioAtencion").truthy then
        [⟨scope, "fechaInicioAtencion", "Required", .null, .error⟩]
      else
        errIf (dateParseIsNaN env (c.get "fechaInicioAtencion"))
          ⟨scope, "fechaInicioAtencion", "Invalid Date Format", c.get "fechaInicioAtencion", .error⟩)
  ++ errIf (¬ (c.get "codConsulta").truthy)
      ⟨scope, "codConsulta", "Required", .null, .error⟩
  ++ errIf (¬ jsIncludes VALID_MODALITIES (c.get "modalidadGrupoServicio"))
      ⟨scope, "modalidadGrupoServicio", "Invalid Modality Code", c.get "modalidadGrupoServicio", .error⟩
  ++ errIf (¬ jsIncludes VALID_SERVICE_GROUPS (c.get "grupoServicios"))
      ⟨scope, "grupoServicios", "Invalid Service Group Code", c.get "grupoServicios", .error⟩
  ++ errIf (¬ (c.get "finalidadTecnologiaSalud").truthy)
      ⟨scope, "finalidadTecnologiaSalud", "Required", .null, .error⟩
  ++ errIf (¬ jsIncludes VALID_CAUSES (c.get "causaMotivoAtencion"))
      ⟨scope, "causaMotivoAtencion", "Invalid Cause Code", c.get "causaMotivoAtencion", .error⟩
  ++ errIf (¬ (c.get "codDiagnosticoPrincipal").truthy)
      ⟨scope, "codDiagnosticoPrincipal", "Required", .null, .error⟩
  ++ errIf (¬ jsIncludes VALID_DIAG_TYPES (c.get "tipoDiagnosticoPrincipal"))
      ⟨scope, "tipoDiagnosticoPrincipal", "Invalid Diagnosis Type", c.get "tipoDiagnosticoPrincipal", .error⟩
  ++ errIf (jsLtZero (c.get "valorPagoModerador"))
      ⟨scope, "valorPagoModerador", "Cannot be negative", c.get "valorPagoModerador", .error⟩
  ++ errIf (jsLtZero (c.get "valorConsulta"))
      ⟨scope, "valorConsulta", "Cannot be negative", c.get "valorConsulta", .error⟩
  ++ errIf (¬ jsIncludes VALID_CONCEPTO_RECAUDO (c.get "conceptoRecaudo"))
      ⟨scope, "conceptoRecaudo", "Invalid Concepto Recaudo", c.get "conceptoRecaudo", .error⟩

/-- Checks of one procedure record (rips-validator.ts:291-330). -/
def procedimientoErrors (env : DateEnv) (uScope : String) (i : Nat) (p : JVal) : List ValidationError :=
  let scope := itemScope uScope "Procedimiento" i p
  (if ¬ (p.get "codPrestador").truthy then
      [⟨scope, "codPrestador", "Required", .null, .error⟩]
    else
      errIf (jsLengthNe (p.get "codPrestador") 12)
        ⟨scope, "codPrestador", "Must be exactly 12 characters", p.get "codPrestador", .error⟩)
  ++ errIf (¬ (p.get "fechaInicioAtencion").truthy || dateParseIsNaN env (p.get "fechaInicioAtencion"))
      ⟨scope, "fechaInicioAtencion", "Invalid Date Format", p.get "fechaInicioAtencion", .error⟩
  ++ errIf (¬ (p.get "codProcedimiento").truthy)
      ⟨scope, "codProcedimiento", "Required", .null, .error⟩
  ++ errIf (¬ jsIncludes ["01", "02", "03", "04"] (p.get "viaIngresoServicio"))
      ⟨scope, "viaIngresoServicio", "Invalid Via Ingreso Code", p.get "viaIngresoServicio", .error⟩
  ++ errIf (¬ (p.get "finalidadTecnologiaSalud").truthy)
      ⟨scope, "finalidadTecnologiaSalud", "Required", .null, .error⟩
  ++ errIf (jsLtZero (p.get "valorProcedimiento"))
      ⟨scope, "valorProcedimiento", "Cannot be negative", p.get "valorProcedimiento", .error⟩
  ++ errIf (¬ jsIncludes VALID_CONCEPTO_RECAUDO (p.get "conceptoRecaudo"))
      ⟨scope, "conceptoRecaudo", "Invalid Concepto Recaudo", p.get "conceptoRecaudo", .error⟩

/-- Checks of one medication record (rips-validator.ts:335-376). -/
def medicamentoErrors (env : DateEnv) (uScope : String) (i : Nat) (m : JVal) : List ValidationError :=
  let scope := itemScope uScope "Medicamento" i m
  (if ¬ (m.get "codPrestador").truthy then
      [⟨scope, "codPrestador", "Required", .null, .error⟩]
    else
      errIf (jsLengthNe (m.get "codPrestador") 12)
        ⟨scope, "codPrestador", "Must be exactly 12 characters", m.get "codPrestador", .error⟩)
  ++ errIf (¬ (m.get "fechaDispencr").truthy || dateParseIsNaN env (m.get "fechaDispencr"))
      ⟨scope, "fechaDispencr", "Invalid Date Format", m.get "fechaDispencr", .error⟩
  ++ errIf (¬ (m.get "codDiagnosticoPrincipal").truthy)
      ⟨scope, "codDiagnosticoPrincipal", "Required", .null, .error⟩
  ++ errIf (¬ (m.get "tipoMedicamento").truthy)
      ⟨scope, "tipoMedicamento", "Required", .null, .error⟩
  ++ errIf (¬ (m.get "codTecnologiaSalud").truthy)
      ⟨scope, "codTecnologiaSalud", "Required", .null, .error⟩
  ++ errIf (¬ (m.get "nomTecnologiaSalud").truthy)
      ⟨scope, "nomTecnologiaSalud", "Required", .null, .error⟩
  ++ errIf (jsLtZero (m.get "diasTratamiento") || jsGt999 (m.get "diasTratamiento")
        || ¬ jsIsInteger (m.get "diasTratamiento"))
      ⟨scope, "diasTratamiento", "Invalid Days (0-999)", m.get "diasTratamiento", .error⟩
  ++ errIf (jsLtZero (m.get "valorUnitarioMedicamento"))
      ⟨scope, "valorUnitarioMedicamento", "Cannot be negative", m.get "valorUnitarioMedicamento", .error⟩
  ++ errIf (jsLtZero (m.get "valorServicio"))
      ⟨scope, "valorServicio", "Cannot be negative", m.get "valorServicio", .error⟩
  ++ errIf (¬ jsIncludes VALID_CONCEPTO_RECAUDO (m.get "conceptoRecaudo"))
      ⟨scope, "conceptoRecaudo", "Invalid Concepto Recaudo", m.get "conceptoRecaudo", .error⟩

/-- Models `validateServices` (rips-validator.ts:222-378): each of the three service
lists is walked only when it is actually an array. -/
def validateServices (env : DateEnv) (servicios : JVal) (uScope : String) : List ValidationError :=
  (match servicios.get "consultas" with
   | .arr xs => (xs.enum.map fun p => consultaErrors env uScope p.1 p.2).flatten
   | _ => [])
  ++ (match servicios.get "procedimientos" with
      | .arr xs => (xs.enum.map fun p => procedimientoErrors env uScope p.1 p.2).flatten
      | _ => [])
  ++ (match servicios.get "medicamentos" with
      | .arr xs => (xs.enum.map fun p => medicamentoErrors env uScope p.1 p.2).flatten
      | _ => [])

/-- All checks of one user entry (rips-validator.ts:89-217). -/
def validateUser (env : DateEnv) (index : Nat) (user : JVal) : List ValidationError :=
  let scope := userScope user index
  let docType := user.get "tipoDocumentoIdentificacion"
  errIf (¬ jsIncludes VALID_DOCUMENT_TYPES docType)
    ⟨scope, "tipoDocumentoIdentificacion", "Invalid Document Type", docType, .error⟩
  ++ docNumErrors scope docType (user.get "numDocumentoIdentificacion")
  ++ dobErrors env scope user
  ++ errIf (¬ jsIncludes VALID_USER_TYPES (user.get "tipoUsuario"))
      ⟨scope, "tipoUsuario", "Invalid User Type", user.get "tipoUsuario", .error⟩
  ++ errIf (¬ jsIncludes VALID_SEX_CODES (user.get "codSexo"))
      ⟨scope, "codSexo", "Invalid Sex Code", user.get "codSexo", .error⟩
  ++ municipalityErrors scope user
  ++ errIf (¬ jsIncludes ["SI", "NO"] (user.get "incapacidad"))
      ⟨scope, "incapacidad", "Must be SI or NO", user.get "incapacidad", .error⟩
  ++ (if (user.get "servicios").truthy then
        validateServices env (user.get "servicios") scope
      else [])

/-- Models `validateRipsJson` (rips-validator.ts:47-220). -/
def validateRipsJson (env : DateEnv) (json : JVal) : List ValidationError :=
  let trans := json.get "transaccion"
  if ¬ trans.truthy then
    [⟨"Structure", "transaccion", "Missing transaction object", .null, .error⟩]
  else
    transErrors trans
    ++ (match trans.get "usuarios" with
        | .arr users => (users.enum.map fun p => validateUser env p.1 p.2).flatten
        | u => [⟨"Transaction", "usuarios", "Must be an array", u, .error⟩])

/-- State-threading rendering of `validateRipsJson`: the document is passed
along the statement sequence of the source and each phase reads from the
document it received.  The source contains no assignment into `json`, so
every phase forwards its input document unchanged. -/
def validateRipsJsonSt (env : DateEnv) (doc : JVal) : List ValidationError × JVal :=
  let trans := doc.get "transaccion"
  if ¬ trans.truthy then
    ([⟨"Structure", "transaccion", "Missing transaction object", .null, .error⟩], doc)
  else
    let step1 : List ValidationError × JVal := (transErrors (doc.get "transaccion"), doc)
    match (step1.2.get "transaccion").get "usuarios" with
    | .arr users =>
        let step2 : List ValidationError × JVal :=
          ((users.enum.map fun p => validateUser env p.1 p.2).flatten, step1.2)
        (step1.1 ++ step2.1, step2.2)
    | u => (step1.1 ++ [⟨"Transaction", "usuarios", "Must be an array", u, .error⟩], step1.2)

end Validator

namespace Generator

/-- A schema tree node (rips-generator.ts:7-68): `node.type` is one of
`root`, `object`, `array`, else the node is treated as a leaf.  Children
are kept in declaration order, as `Object.entries` enumerates them. -/
inductive SchemaNode where
  | root : List (String × SchemaNode) → SchemaNode
  | obj : List (String × SchemaNode) → SchemaNode
  | arr : List (String × SchemaNode) → SchemaNode
  | leaf : SchemaNode

/-- One mapping entry (the parsed preset JSON): `type` discriminates the
binding; the remaining properties are read only for the types that use
them.  A missing string property is modelled as `""` (falsy). -/
structure MappingConfig where
  ctype : String
  table : String := ""
  value : JVal := JVal.undefined
  column : String := ""
  refTable : String := ""
  matchColumn : String := ""
  returnColumn : String := ""

/-- The mapping object: dot-joined path → entry (absent → `undefined`). -/
abbrev Mapping := String → Option MappingConfig

/-- A fetched row / the accumulated context: an ordered list of
field-value pairs; `{...context, ...row}` is concatenation, with the
later (row) binding shadowing on lookup. -/
abbrev Row := List (String × JVal)

/-- JS object property lookup on a context/row: last write wins,
absent → `undefined`. -/
def rowGet (r : Row) (k : String) : JVal :=
  r.foldl (fun acc p => if p.1 = k then p.2 else acc) .undefined

/-- Models `{ ...context, ...row }`. -/
def mergeCtx (ctx row : Row) : Row := ctx ++ row

/-- Models `{ dateStart, dateEnd }` passed by `generateRipsJson`. -/
structure GlobalParams where
  dateStart : String
  dateEnd : String

/-- The SQL query assembled for an array node (rips-generator.ts:131-154):
base table plus the heuristically added predicates, in build order. -/
structure ArrayQuery where
  table : String
  dateFilter : Option (String × String × String) := none
  pidFilter : Option JVal := none
  encounterFilter : Option JVal := none

/-- External collaborators of the interpreter:
`tableColumns` models `getOpenEmrTableColumns` (`none` = the call threw),
`fetch` models executing the assembled query (`none` = the query threw),
`refFind` models `prisma.referenceRecord.findFirst({tableName, [matchColumn]:
value})` (`none` = no record or the lookup threw; both degrade to null). -/
structure GenEnv where
  tableColumns : String → Option (List String)
  fetch : ArrayQuery → Option (List Row)
  refFind : String → String → String → Option Row

/-- Predicate assembly for an array node (rips-generator.ts:119-154).
A thrown column introspection is caught and leaves the column list empty. -/
def buildQuery (env : GenEnv) (tableName : String) (ctx : Row) (gp : GlobalParams) : ArrayQuery :=
  let columns := (env.tableColumns tableName).getD []
  let hasDate := columns.contains "date"
  let hasPid := columns.contains "pid"
  let hasEncounter := columns.contains "encounter"
  let dateFilter :=
    if hasDate ∧ gp.dateStart ≠ "" ∧ gp.dateEnd ≠ "" then
      some ("date", gp.dateStart, gp.dateEnd)
    else if columns.contains "date_service" ∧ gp.dateStart ≠ "" ∧ gp.dateEnd ≠ "" then
      some ("date_service", gp.dateStart, gp.dateEnd)
    else none
  let pidFilter := if (rowGet ctx "pid").truthy ∧ hasPid then some (rowGet ctx "pid") else none
  let encounterFilter :=
    if (rowGet ctx "encounter").truthy ∧ hasEncounter then some (rowGet ctx "encounter") else none
  { table := tableName, dateFilter := dateFilter,
    pidFilter := pidFilter, encounterFilter := encounterFilter }

/-- Leaf resolution (rips-generator.ts:180-227). -/
def processLeaf (env : GenEnv) (path : String) (mapping : Mapping) (ctx : Row) : JVal :=
  match mapping path with
  | none => .null
  | some config =>
      if config.ctype = "static" then config.value
      else if config.ctype = "field" then
        match rowGet ctx config.column with
        | .undefined => .null
        | v => v
      else if config.ctype = "lookup" then
        match rowGet ctx config.column with
        | .undefined => .null
        | .null => .null
        | sourceVal =>
            match env.refFind config.refTable config.matchColumn sourceVal.display with
            | some ref => rowGet ref config.returnColumn
            | none => .null
      else .null

/-- Models `path ? path + "." + key : key`. -/
def childPath (path key : String) : String :=
  if path = "" then key else path ++ "." ++ key

mutual

/-- Models `processNode` (rips-generator.ts:86-228).  Root and object nodes build
an object over their children; an array node resolves its `list` mapping,
assembles and runs the heuristic query, and emits one object per fetched
row under the merged context; anything else is a leaf. -/
def processNode (env : GenEnv) (node : SchemaNode) (path : String) (mapping : Mapping)
    (ctx : Row) (gp : GlobalParams) : JVal :=
  match node with
  | .root children => .obj (processChildren env children path mapping ctx gp)
  | .obj children => .obj (processChildren env children path mapping ctx gp)
  | .arr children =>
      match mapping path with
      | none => .arr []
      | some config =>
          if config.ctype ≠ "list" ∨ config.table = "" then .arr []
          else
            match env.fetch (buildQuery env config.table ctx gp) with
            | none => .arr []
            | some rows => .arr (processRows env children path mapping ctx gp rows)
  | .leaf => processLeaf env path mapping ctx

/-- The child loop shared by root/object/array-item processing
(rips-generator.ts:90-94, 100-104, 166-170). -/
def processChildren (env : GenEnv) (children : List (String × SchemaNode)) (path : String)
    (mapping : Mapping) (ctx : Row) (gp : GlobalParams) : List (String × JVal) :=
  match children with
  | [] => []
  | (key, child) :: rest =>
      (key, processNode env child (childPath path key) mapping ctx gp)
      :: processChildren env rest path mapping ctx gp

/-- The row loop of an array node (rips-generator.ts:161-172): one item
object per row, in fetch order, under `{...context, ...row}`. -/
def processRows (env : GenEnv) (children : List (String × SchemaNode)) (path : String)
    (mapping : Mapping) (ctx : Row) (gp : GlobalParams) (rows : List Row) : List JVal :=
  match rows with
  | [] => []
  | row :: rest =>
      .obj (processChildren env children path mapping (mergeCtx ctx row) gp)
      :: processRows env children path mapping ctx gp rest

end

end Generator

namespace Pipeline

/-- Models `x || d` on a nullable string (JS falsy fallback: null/undefined/""). -/
def jsOrStr (o : Option String) (d : String) : String :=
  match o with
  | some s => if s = "" then d else s
  | none => d

/-- Truthiness of a nullable number (`0`, `null`, `undefined` are falsy). -/
def optIntTruthy (o : Option Int) : Bool :=
  match o with
  | some n => n ≠ 0
  | none => false

/-- Row of `getEncountersForPatients` (openemr/queries.ts:111-125). -/
structure Encounter where
  id : Int
  date : Option String := none
  encounter : Option Int := none
  pid : Option Int := none
  invoice_refno : Option String := none
  provider_id : Option Int := none

/-- Row of `getPatientsRipsData` (openemr/queries.ts:130-149). -/
structure Patient where
  pid : Int
  DOB : Option String := none
  sex : Option String := none
  ss : Option String := none
  country_code : Option String := none
  city : Option String := none
  document_type : Option String := none
  user_type : Option String := none

/-- Row of `getBillingOptionsByEncounterIds` (openemr/queries.ts:154-162). -/
structure BillingOption where
  encounter : Option Int
  is_unable_to_work : Option Int

/-- Row of `getBillingRecords` (openemr/queries.ts:180-188).  `fee` is a
decimal column; it is modelled as an integer since no claim depends on
fractional fees. -/
structure BillingRecord where
  encounter : Option Int
  code_type : Option String := none
  code : Option String := none
  fee : Option Int := none
  date : Option String := none

/-- Row of `getPrescriptions` (openemr/queries.ts:193-201).  The query
selects neither `end_date` nor `provider_id`, so the reads the handler makes of
`med.end_date` and `med.provider_id` always see `undefined`: the
treatment-days branch is dead (0) and the prescriber falls back to the
provider of the encounter. -/
structure Prescription where
  encounter : Option Int
  rxnorm_drugcode : Option String := none
  drug : Option String := none
  quantity : Option Int := none
  start_date : Option String := none

/-- Row of `getProvidersByIds` (openemr/queries.ts:167-175). -/
structure Provider where
  id : Int
  federaltaxid : Option String := none
  npi : Option String := none

/-- The primary facility (only `federal_ein` is read). -/
structure Facility where
  federal_ein : Option String := none

/-- A local `ReferenceRecord` row (the fields the helper touches). -/
structure RefRecord where
  tableName : String
  codigo : String
  nombre : String := ""
  extraI : Option String := none
  habilitado : Bool := true
  externalId : Option Int := none
  deriving Repr, DecidableEq

/-- One entry of the generate input (rips.ts input schema). -/
structure Selection where
  patientId : Int
  encounterIds : List Int
  userType : Option String := none

/-- All external data the generate handler has batch-fetched, plus the
local reference DB and the date-formatting oracle
(`toIso s` models `new Date(s).toISOString()`). -/
structure PipeEnv where
  facility : Facility
  patients : List Patient
  allEncounters : List Encounter
  billingOptions : List BillingOption
  billingRecords : List BillingRecord
  prescriptions : List Prescription
  providers : List Provider
  localDb : List RefRecord
  toIso : String → String

/-- Models `ensureRipsIncapacidadOptions` (rips-helper.ts:49-84): seed the two
default rows exactly when the table has no row at all. -/
def ensureRipsIncapacidadOptions (db : List RefRecord) : List RefRecord :=
  if (db.filter fun r => r.tableName = "RIPSIncapacidad").length = 0 then
    db ++
      [{ tableName := "RIPSIncapacidad", codigo := "SI", nombre := "Si",
         extraI := some "1", habilitado := true, externalId := some 1 },
       { tableName := "RIPSIncapacidad", codigo := "NO", nombre := "No",
         extraI := some "0", habilitado := true, externalId := some 2 }]
  else db

/-- Models `getRipIncapacidades` (rips-helper.ts:89-101). -/
def getRipIncapacidades (db : List RefRecord) : List RefRecord :=
  db.filter fun r => r.tableName = "RIPSIncapacidad" ∧ r.habilitado

/-- Models `incapOptions.find(o => o.extraI === "1")?.codigo || "SI"` (rips.ts). -/
def siOptionOf (opts : List RefRecord) : String :=
  match opts.find? fun o => o.extraI = some "1" with
  | some r => if r.codigo = "" then "SI" else r.codigo
  | none => "SI"

/-- Models `incapOptions.find(o => o.extraI === "0")?.codigo || "NO"` (rips.ts). -/
def noOptionOf (opts : List RefRecord) : String :=
  match opts.find? fun o => o.extraI = some "0" with
  | some r => if r.codigo = "" then "NO" else r.codigo
  | none => "NO"

/-- Models `new Map(allEncounters.map(e => [e.id, e])).get(id)`: on duplicate
keys the later entry wins. -/
def encounterMapGet (encs : List Encounter) (id : Int) : Option Encounter :=
  encs.foldl (fun acc e => if e.id = id then some e else acc) none

/-- Provider map lookup (rips.ts: `providerMap`). -/
def providerMapGet (ps : List Provider) (id : Int) : Option Provider :=
  ps.foldl (fun acc p => if p.id = id then some p else acc) none

/-- Patient map lookup (rips.ts: `patientMap`). -/
def patientMapGet (ps : List Patient) (pid : Int) : Option Patient :=
  ps.foldl (fun acc p => if p.pid = pid then some p else acc) none

/-- Models `billingMap.get(encNum)` where the map was filled by
`for (opt of billingOptions) if (opt.encounter) set(opt.encounter,
opt.is_unable_to_work)`: last write wins, untruthy keys never inserted. -/
def billingMapGet (opts : List BillingOption) (encNum : Int) : Option (Option Int) :=
  opts.foldl
    (fun acc o =>
      match o.encounter with
      | some k => if k ≠ 0 ∧ k = encNum then some o.is_unable_to_work else acc
      | none => acc)
    none

/-- Models `billingRecordsByEncounter.get(encNum) || []`: the group holds, in
fetch order, every record with that truthy encounter number. -/
def billingRecordsFor (recs : List BillingRecord) (encNum : Int) : List BillingRecord :=
  recs.filter fun r =>
    match r.encounter with
    | some k => k ≠ 0 ∧ k = encNum
    | none => false

/-- Models `prescriptionsByEncounter.get(encNum) || []`. -/
def prescriptionsFor (pres : List Prescription) (encNum : Int) : List Prescription :=
  pres.filter fun p =>
    match p.encounter with
    | some k => k ≠ 0 ∧ k = encNum
    | none => false

/-- The incapacidad loop (rips.ts:152-162): scan the selected encounter
ids; at the first resolved encounter whose billing-map value is exactly 1,
answer the SI code; when the scan falls through, the NO code. -/
def computeIncapacidad (encs : List Encounter) (opts : List BillingOption)
    (si no : String) : List Int → String
  | [] => no
  | encId :: rest =>
      match encounterMapGet encs encId with
      | some enc =>
          match enc.encounter with
          | some encNum =>
              if encNum ≠ 0 then
                if billingMapGet opts encNum = some (some 1) then si
                else computeIncapacidad encs opts si no rest
              else computeIncapacidad encs opts si no rest
          | none => computeIncapacidad encs opts si no rest
      | none => computeIncapacidad encs opts si no rest

/-- Models `x ? new Date(x).toISOString() : fallback`. -/
def isoOr (toIso : String → String) (d : Option String) (fallback : String) : String :=
  match d with
  | some s => if s = "" then fallback else toIso s
  | none => fallback

/-- Models `diagnoses[i]?.code || ""`. -/
def diagAt (ds : List BillingRecord) (i : Nat) : String :=
  match ds.get? i with
  | some d => jsOrStr d.code ""
  | none => ""

/-- Models `enc.provider_id ? providerMap.get(enc.provider_id) : undefined`. -/
def encProvider (provs : List Provider) (enc : Encounter) : Option Provider :=
  match enc.provider_id with
  | some pv => if pv ≠ 0 then providerMapGet provs pv else none
  | none => none

/-- Models `provider ? (provider.federaltaxid || provider.npi || "") : ""`. -/
def providerDocNum (p : Option Provider) : String :=
  match p with
  | some prov => jsOrStr prov.federaltaxid (jsOrStr prov.npi "")
  | none => ""

/-- The consultation record synthesized for one encounter
(rips.ts:187-209). -/
structure Consulta where
  codPrestador : String
  fechaInicioAtencion : String
  numAutorizacion : String
  codConsulta : String
  modalidadGrupoServicio : String
  grupoServicios : String
  codServicio : String
  finalidadTecnologiaSalud : String
  causaMotivoAtencion : String
  codDiagnosticoPrincipal : String
  codDiagnosticoRelacionado1 : String
  codDiagnosticoRelacionado2 : String
  codDiagnosticoRelacionado3 : String
  tipoDiagnosticoPrincipal : String
  tipoDocumentoIdentificacion : String
  numDocumentoIdentificacion : String
  valorPagoModerador : Int
  valorConsulta : Int
  conceptoRecaudo : String
  numFEVPagoModerador : String
  consecutivo : Nat

/-- Build the consultation for one encounter (rips.ts:187-209). -/
def mkConsulta (toIso : String → String) (facEin : String) (enc : Encounter)
    (diagnoses : List BillingRecord) (provider : Option Provider) (consec : Nat) : Consulta :=
  { codPrestador := facEin
    fechaInicioAtencion := isoOr toIso enc.date ""
    numAutorizacion := ""
    codConsulta := ""
    modalidadGrupoServicio := "01"
    grupoServicios := "01"
    codServicio := "348"
    finalidadTecnologiaSalud := "10"
    causaMotivoAtencion := "38"
    codDiagnosticoPrincipal := if diagnoses.length > 0 then diagAt diagnoses 0 else ""
    codDiagnosticoRelacionado1 := if diagnoses.length > 1 then diagAt diagnoses 1 else ""
    codDiagnosticoRelacionado2 := if diagnoses.length > 2 then diagAt diagnoses 2 else ""
    codDiagnosticoRelacionado3 := if diagnoses.length > 3 then diagAt diagnoses 3 else ""
    tipoDiagnosticoPrincipal := "01"
    tipoDocumentoIdentificacion := "CC"
    numDocumentoIdentificacion := providerDocNum provider
    valorPagoModerador := 0
    valorConsulta := 0
    conceptoRecaudo := "05"
    numFEVPagoModerador := ""
    consecutivo := consec }

/-- The procedure record per procedure-type billing line (rips.ts:213-234). -/
structure Procedimiento where
  codPrestador : String
  fechaInicioAtencion : String
  idMIPRES : Option String
  numAutorizacion : String
  codProcedimiento : String
  viaIngresoServicio : String
  modalidadGrupoServicio : String
  grupoServicios : String
  codServicio : String
  finalidadTecnologiaSalud : String
  tipoDocumentoIdentificacion : String
  numDocumentoIdentificacion : String
  codDiagnosticoPrincipal : String
  codDiagnosticoRelacionado : String
  codComplicacion : String
  valorPagoModerador : Int
  valorProcedimiento : Int
  conceptoRecaudo : String
  numFEVPagoModerador : String
  consecutivo : Nat

/-- Build one procedure record (rips.ts:213-234). -/
def mkProcedimiento (toIso : String → String) (facEin : String) (enc : Encounter)
    (proc : BillingRecord) (diagnoses : List BillingRecord) (provider : Option Provider)
    (consec : Nat) : Procedimiento :=
  { codPrestador := facEin
    fechaInicioAtencion := isoOr toIso proc.date (isoOr toIso enc.date "")
    idMIPRES := none
    numAutorizacion := ""
    codProcedimiento := jsOrStr proc.code ""
    viaIngresoServicio := "01"
    modalidadGrupoServicio := "01"
    grupoServicios := "01"
    codServicio := "348"
    finalidadTecnologiaSalud := "44"
    tipoDocumentoIdentificacion := "CC"
    numDocumentoIdentificacion := providerDocNum provider
    codDiagnosticoPrincipal := if diagnoses.length > 0 then diagAt diagnoses 0 else ""
    codDiagnosticoRelacionado := if diagnoses.length > 1 then diagAt diagnoses 1 else ""
    codComplicacion := ""
    valorPagoModerador := 0
    valorProcedimiento := proc.fee.getD 0
    conceptoRecaudo := "05"
    numFEVPagoModerador := ""
    consecutivo := consec }

/-- The medication record per prescription (rips.ts:251-275).  Because
`getPrescriptions` selects neither `end_date` nor `provider_id`,
`diasTratamiento` is always 0 and the prescriber falls back to the
provider of the encounter. -/
structure Medicamento where
  codPrestador : String
  numAutorizacion : String
  idMIPRES : Option String
  fechaDispencr : String
  codDiagnosticoPrincipal : String
  codDiagnosticoRelacionado : String
  tipoMedicamento : String
  codTecnologiaSalud : String
  nomTecnologiaSalud : String
  concentracionMedicamento : Int
  unidadMedida : String
  formaFarmaceutica : String
  unidadMinDispensacion : String
  cantidadMedicamento : Int
  diasTratamiento : Int
  tipoDocumentoIdentificacion : String
  numDocumentoIdentificacion : String
  valorPagoModerador : Int
  valorUnitarioMedicamento : Int
  valorServicio : Int
  conceptoRecaudo : String
  numFEVPagoModerador : String
  consecutivo : Nat

/-- Build one medication record (rips.ts:251-275). -/
def mkMedicamento (toIso : String → String) (facEin : String) (enc : Encounter)
    (med : Prescription) (diagnoses : List BillingRecord) (provider : Option Provider)
    (consec : Nat) : Medicamento :=
  { codPrestador := facEin
    numAutorizacion := ""
    idMIPRES := none
    fechaDispencr := isoOr toIso med.start_date (isoOr toIso enc.date "")
    codDiagnosticoPrincipal := if diagnoses.length > 0 then diagAt diagnoses 0 else ""
    codDiagnosticoRelacionado := if diagnoses.length > 1 then diagAt diagnoses 1 else ""
    tipoMedicamento := "01"
    codTecnologiaSalud := jsOrStr med.rxnorm_drugcode ""
    nomTecnologiaSalud := jsOrStr med.drug ""
    concentracionMedicamento := 0
    unidadMedida := ""
    formaFarmaceutica := ""
    unidadMinDispensacion := ""
    cantidadMedicamento := med.quantity.getD 0
    diasTratamiento := 0
    tipoDocumentoIdentificacion := "CC"
    numDocumentoIdentificacion := providerDocNum provider
    valorPagoModerador := 0
    valorUnitarioMedicamento := 0
    valorServicio := 0
    conceptoRecaudo := "05"
    numFEVPagoModerador := ""
    consecutivo := consec }

/-- Models `procedimientos.push(...)` loop: each push takes the current length
plus one as its consecutive. -/
def pushProcedimientos (toIso : String → String) (facEin : String) (enc : Encounter)
    (diagnoses : List BillingRecord) (provider : Option Provider) :
    List BillingRecord → List Procedimiento → List Procedimiento
  | [], acc => acc
  | proc :: rest, acc =>
      pushProcedimientos toIso facEin enc diagnoses provider rest
        (acc ++ [mkProcedimiento toIso facEin enc proc diagnoses provider (acc.length + 1)])

/-- Models `medicamentos.push(...)` loop. -/
def pushMedicamentos (toIso : String → String) (facEin : String) (enc : Encounter)
    (diagnoses : List BillingRecord) (provider : Option Provider) :
    List Prescription → List Medicamento → List Medicamento
  | [], acc => acc
  | med :: rest, acc =>
      pushMedicamentos toIso facEin enc diagnoses provider rest
        (acc ++ [mkMedicamento toIso facEin enc med diagnoses provider (acc.length + 1)])

/-- The per-user service collection loop (rips.ts:164-277): every retained
encounter with a truthy encounter number contributes exactly one
consultation, one procedure per `code_type` "4" billing line, and one
medication per prescription. -/
def servicesLoop (env : PipeEnv) (facEin : String) :
    List Encounter → List Consulta → List Procedimiento → List Medicamento →
    List Consulta × List Procedimiento × List Medicamento
  | [], cs, ps, ms => (cs, ps, ms)
  | enc :: rest, cs, ps, ms =>
      match enc.encounter with
      | none => servicesLoop env facEin rest cs ps ms
      | some encNum =>
          if encNum = 0 then servicesLoop env facEin rest cs ps ms
          else
            let billingItems := billingRecordsFor env.billingRecords encNum
            let presItems := prescriptionsFor env.prescriptions encNum
            let diagnoses := billingItems.filter fun b => b.code_type = some "RIPS"
            let procedures := billingItems.filter fun b => b.code_type = some "4"
            let provider := encProvider env.providers enc
            servicesLoop env facEin rest
              (cs ++ [mkConsulta env.toIso facEin enc diagnoses provider (cs.length + 1)])
              (pushProcedimientos env.toIso facEin enc diagnoses provider procedures ps)
              (pushMedicamentos env.toIso facEin enc diagnoses provider presItems ms)

/-- Models `servicios` of one emitted user (rips.ts:296-304); the four trailing
service kinds are emitted as empty arrays. -/
structure Servicios where
  consultas : List Consulta
  procedimientos : List Procedimiento
  medicamentos : List Medicamento
  urgencias : List JVal := []
  hospitalizacion : List JVal := []
  recienNacidos : List JVal := []
  otrosServicios : List JVal := []

/-- One emitted user object (rips.ts:286-305). -/
structure Usuario where
  tipoDocumentoIdentificacion : String
  numDocumentoIdentificacion : String
  tipoUsuario : String
  fechaNacimiento : String
  codSexo : String
  codPaisResidencia : String
  codMunicipioResidencia : String
  incapacidad : String
  consecutivo : Nat
  servicios : Servicios

/-- Models the JS expression: if DOB is truthy, the date part (before "T")
of `new Date(DOB).toISOString()`, else the empty string. -/
def dobDatePart (toIso : String → String) (dob : Option String) : String :=
  match dob with
  | some s => if s = "" then "" else ((toIso s).splitOn "T").headD ""
  | none => ""

/-- Models `facility.federal_ein || ""`. -/
def facEinOf (env : PipeEnv) : String := jsOrStr env.facility.federal_ein ""

/-- The body of the per-selection loop (rips.ts:141-307): `none` when the
patient is unknown or no selected encounter resolves (the `continue`
paths), otherwise the fully assembled user object. -/
def buildUser (env : PipeEnv) (si no : String) (sel : Selection) (consec : Nat) :
    Option Usuario :=
  match patientMapGet env.patients sel.patientId with
  | none => none
  | some patient =>
      let patientEncounters := sel.encounterIds.filterMap (encounterMapGet env.allEncounters)
      if patientEncounters.length = 0 then none
      else
        let incapacidad := computeIncapacidad env.allEncounters env.billingOptions si no sel.encounterIds
        let svc := servicesLoop env (facEinOf env) patientEncounters [] [] []
        some
          { tipoDocumentoIdentificacion := jsOrStr patient.document_type "CC"
            numDocumentoIdentificacion := jsOrStr patient.ss ""
            tipoUsuario := jsOrStr patient.user_type (jsOrStr sel.userType "")
            fechaNacimiento := dobDatePart env.toIso patient.DOB
            codSexo := jsOrStr patient.sex ""
            codPaisResidencia := jsOrStr patient.country_code "170"
            codMunicipioResidencia := jsOrStr patient.city ""
            incapacidad := incapacidad
            consecutivo := consec
            servicios :=
              { consultas := svc.1
                procedimientos := svc.2.1
                medicamentos := svc.2.2 } }

/-- The selection loop (rips.ts:138-307): `userConsecutive` starts at 1 and
advances only when a user is actually emitted. -/
def buildUsuarios (env : PipeEnv) (si no : String) : List Selection → Nat → List Usuario
  | [], _ => []
  | sel :: rest, k =>
      match buildUser env si no sel k with
      | some u => u :: buildUsuarios env si no rest (k + 1)
      | none => buildUsuarios env si no rest k

/-- Steps 4-6 of the generate handler that produce `usuarios`
(rips.ts:67-307): self-seed the incapacidad reference table, derive the
SI/NO codes, then run the selection loop. -/
def generateUsuarios (env : PipeEnv) (sels : List Selection) : List Usuario :=
  let opts := getRipIncapacidades (ensureRipsIncapacidadOptions env.localDb)
  buildUsuarios env (siOptionOf opts) (noOptionOf opts) sels 1

end Pipeline

namespace Validator

/-- Boolean shape of every finding a service-level check can emit:
severity `error`, and never on one of the user-level fields the age,
municipality and date-of-birth rules use. -/
def svcOk (e : ValidationError) : Bool :=
  e.severity == .error && e.field != "tipoDocumentoIdentificacion"
    && e.field != "codMunicipioResidencia" && e.field != "fechaNacimiento"

/-- The warning message of the one warning-producing rule. -/
def rsWarningMsg : String :=
  "For RIPS without FEV (no invoice number), tipoNota should be \x27RS\x27"

/-- A date environment whose parser accepts nothing (every string is NaN). -/
def nanDateEnv : DateEnv := ⟨fun _ => none, 0⟩

/-- A date environment where "2009-01-01" parses to epoch 0 and "now" is
a bit past 17 averaged years. -/
def wEnv17 : DateEnv :=
  ⟨fun s => if s = "2009-01-01" then some 0 else none, 17 * msPerYear + 5⟩

def wUserCC : JVal :=
  .obj [("tipoDocumentoIdentificacion", .str "CC"),
        ("fechaNacimiento", .str "2009-01-01")]

def wUserMuni : JVal := .obj [("codPaisResidencia", .str "170")]

def wUserBadDob : JVal := .obj [("fechaNacimiento", .str "not-a-date")]

/-- A date environment whose "now" is 2026-10-11 and which parses the
future date "2026-12-01" (as the JS date parser does). -/
def futEnv : DateEnv :=
  ⟨fun s => if s = "2026-12-01" then some 1764547200000 else none, 1760140800000⟩

def futUser : JVal := .obj [("fechaNacimiento", .str "2026-12-01")]

def warnDoc : JVal :=
  .obj [("transaccion",
    .obj [("numFactura", .str ""), ("tipoNota", .str "ND"), ("usuarios", .arr [])])]

def nullNoteDoc : JVal :=
  .obj [("transaccion",
    .obj [("numDocumentoIdObligado", .str "12345"), ("numFactura", .str ""),
          ("tipoNota", .null), ("usuarios", .arr [])])]

def noTransDoc : JVal := .obj [("foo", .num 1)]

def badUsersDoc : JVal :=
  .obj [("transaccion",
    .obj [("numDocumentoIdObligado", .str "12345"), ("numFactura", .str "F1"),
          ("tipoNota", .null), ("usuarios", .str "nope")])]

end Validator

namespace Generator

mutual

/-- Structural conformance of an interpreter output to a schema node:
root/object nodes yield an object whose key list is exactly the declared
child list (in order); an array node yields a sequence of such objects;
leaves may hold anything (possibly null). -/
inductive Conforms : SchemaNode → JVal → Prop where
  | leaf (v : JVal) : Conforms .leaf v
  | root (cs : List (String × SchemaNode)) (fields : List (String × JVal)) :
      FieldsConform cs fields → Conforms (.root cs) (.obj fields)
  | obj (cs : List (String × SchemaNode)) (fields : List (String × JVal)) :
      FieldsConform cs fields → Conforms (.obj cs) (.obj fields)
  | arr (cs : List (String × SchemaNode)) (items : List JVal) :
      ItemsConform cs items → Conforms (.arr cs) (.arr items)

/-- The fields of an emitted object line up one-to-one, by name and in
order, with the declared children. -/
inductive FieldsConform : List (String × SchemaNode) → List (String × JVal) → Prop where
  | nil : FieldsConform [] []
  | cons (k : String) (c : SchemaNode) (v : JVal)
      (cs : List (String × SchemaNode)) (fields : List (String × JVal)) :
      Conforms c v → FieldsConform cs fields →
      FieldsConform ((k, c) :: cs) ((k, v) :: fields)

/-- Every item an array node emits is an object conforming to the
children of the node. -/
inductive ItemsConform : List (String × SchemaNode) → List JVal → Prop where
  | nil (cs : List (String × SchemaNode)) : ItemsConform cs []
  | cons (cs : List (String × SchemaNode)) (fields : List (String × JVal)) (items : List JVal) :
      FieldsConform cs fields → ItemsConform cs items →
      ItemsConform cs (.obj fields :: items)

end

end Generator

namespace Pipeline

/-- Fallback user object used to read off Option results in witnesses. -/
def dummyUsuario : Usuario :=
  { tipoDocumentoIdentificacion := "", numDocumentoIdentificacion := "", tipoUsuario := "",
    fechaNacimiento := "", codSexo := "", codPaisResidencia := "", codMunicipioResidencia := "",
    incapacidad := "", consecutivo := 0,
    servicios := { consultas := [], procedimientos := [], medicamentos := [] } }

def c3Env : PipeEnv :=
  { facility := {}
    patients := [{ pid := 1 }]
    allEncounters := [{ id := 1, encounter := some 10 }]
    billingOptions := []
    billingRecords := []
    prescriptions := []
    providers := []
    localDb := []
    toIso := fun s => s }

def c3Sel : Selection := { patientId := 1, encounterIds := [1, 2] }

def c6Env : PipeEnv :=
  { facility := {}
    patients := [{ pid := 1 }]
    allEncounters := [{ id := 1, encounter := some 10 }]
    billingOptions := [⟨some 10, some 1⟩]
    billingRecords := []
    prescriptions := []
    providers := []
    localDb := []
    toIso := fun s => s }

def c6Sel : Selection := { patientId := 1, encounterIds := [1] }

def c6DupEnv : PipeEnv :=
  { facility := {}
    patients := [{ pid := 1 }]
    allEncounters := [{ id := 1, encounter := some 10 }]
    billingOptions := [⟨some 10, some 1⟩, ⟨some 10, some 0⟩]
    billingRecords := []
    prescriptions := []
    providers := []
    localDb := []
    toIso := fun s => s }

end Pipeline

namespace Generator

/-- Models `RIPS_SCHEMA` (rips-generator.ts:7-68), with the leaf type tags
dropped: `processNode` only discriminates root/object/array vs leaf. -/
def ripsSchema : SchemaNode :=
  .root [("transaccion", .obj [
    ("numDocumentoIdObligado", .leaf), ("numFactura", .leaf),
    ("tipoNota", .leaf), ("numNota", .leaf),
    ("usuarios", .arr [
      ("tipoDocumentoIdentificacion", .leaf), ("numDocumentoIdentificacion", .leaf),
      ("tipoUsuario", .leaf), ("fechaNacimiento", .leaf), ("codSexo", .leaf),
      ("codPaisResidencia", .leaf), ("codMunicipioResidencia", .leaf),
      ("incapacidad", .leaf), ("consecutivo", .leaf),
      ("servicios", .obj [
        ("consultas", .arr [
          ("codPrestador", .leaf), ("fechaInicioAtencion", .leaf),
          ("numAutorizacion", .leaf), ("codConsulta", .leaf),
          ("modalidadGrupoServicioTec", .leaf), ("grupoServicios", .leaf),
          ("codServicio", .leaf), ("finalidadTecnologiaSalud", .leaf),
          ("causaMotivoAtencion", .leaf), ("codDiagnosticoPrincipal", .leaf),
          ("codDiagnosticoRelacionado1", .leaf), ("codDiagnosticoRelacionado2", .leaf),
          ("codDiagnosticoRelacionado3", .leaf), ("tipoDocumentoIdentificacion", .leaf),
          ("numDocumentoIdentificacion", .leaf), ("vrServicio", .leaf),
          ("tipoPagoModerador", .leaf), ("valorPagoModerador", .leaf),
          ("numFEVPagoModerador", .leaf)])])])])]

def wGenEnv : GenEnv :=
  { tableColumns := fun _ => some ["pid", "date"]
    fetch := fun _ => some [[("pid", .num 7)], [("pid", .num 8)]]
    refFind := fun _ _ _ => none }

def wMapping : Mapping := fun p =>
  if p = "items" then some { ctype := "list", table := "t" }
  else if p = "items.pid" then some { ctype := "field", column := "pid" }
  else none

end Generator

namespace Validator

theorem mem_errIf_iff {e v : ValidationError} {b : Bool} :
    e ∈ errIf b v ↔ (b = true ∧ e = v) := by
  unfold errIf; split <;> simp_all

theorem all_errIf (p : ValidationError → Bool) (b : Bool) (v : ValidationError) :
    (errIf b v).all p = (!b || p v) := by
  unfold errIf; split <;> simp_all

theorem mem_ite_lists {p : Prop} [Decidable p] {l1 l2 : List ValidationError} {e : ValidationError}
    (h : e ∈ if p then l1 else l2) : (p ∧ e ∈ l1) ∨ (¬p ∧ e ∈ l2) := by
  split at h
  · exact Or.inl ⟨by assumption, h⟩
  · exact Or.inr ⟨by assumption, h⟩

theorem consultaErrors_all (env : DateEnv) (uScope : String) (i : Nat) (c : JVal) :
    (consultaErrors env uScope i c).all svcOk = true := by
  unfold consultaErrors
  simp [List.all_append, all_errIf, svcOk]
  refine ⟨?_, ?_⟩ <;> (intro x hx; split at hx <;> simp_all [mem_errIf_iff])

theorem procedimientoErrors_all (env : DateEnv) (uScope : String) (i : Nat) (p : JVal) :
    (procedimientoErrors env uScope i p).all svcOk = true := by
  unfold procedimientoErrors
  simp [List.all_append, all_errIf, svcOk]
  intro x hx; split at hx <;> simp_all [mem_errIf_iff]

theorem medicamentoErrors_all (env : DateEnv) (uScope : String) (i : Nat) (m : JVal) :
    (medicamentoErrors env uScope i m).all svcOk = true := by
  unfold medicamentoErrors
  simp [List.all_append, all_errIf, svcOk]
  intro x hx; split at hx <;> simp_all [mem_errIf_iff]

theorem flatten_enum_svcOk {α : Type} {e : ValidationError} {xs : List α}
    {f : Nat → α → List ValidationError}
    (hf : ∀ i x, (f i x).all svcOk = true)
    (h : e ∈ (xs.enum.map fun p => f p.1 p.2).flatten) : svcOk e = true := by
  simp only [List.mem_flatten, List.mem_map] at h
  obtain ⟨l, ⟨⟨i, x⟩, hmem, rfl⟩, hel⟩ := h
  exact List.all_eq_true.1 (hf i x) e hel

theorem validateServices_svcOk (env : DateEnv) (s : JVal) (uScope : String) :
    ∀ e ∈ validateServices env s uScope, svcOk e = true := by
  intro e he
  simp only [validateServices, List.append_assoc] at he
  rcases List.mem_append.1 he with h | he
  · split at h
    · exact flatten_enum_svcOk (fun i x => consultaErrors_all env uScope i x) h
    · cases h
  rcases List.mem_append.1 he with h | h
  · split at h
    · exact flatten_enum_svcOk (fun i x => procedimientoErrors_all env uScope i x) h
    · cases h
  · split at h
    · exact flatten_enum_svcOk (fun i x => medicamentoErrors_all env uScope i x) h
    · cases h

theorem validateServices_prop (env : DateEnv) (s : JVal) (uScope : String) :
    ∀ e ∈ validateServices env s uScope,
      e.severity = .error ∧ e.field ≠ "tipoDocumentoIdentificacion"
        ∧ e.field ≠ "codMunicipioResidencia" ∧ e.field ≠ "fechaNacimiento" := by
  intro e he
  have h := validateServices_svcOk env s uScope e he
  simp only [svcOk, Bool.and_eq_true, beq_iff_eq, bne_iff_ne] at h
  exact ⟨h.1.1.1, h.1.1.2, h.1.2, h.2⟩

theorem docNumErrors_prop (sc : String) (dt dn : JVal) :
    ∀ e ∈ docNumErrors sc dt dn,
      e.severity = .error ∧ e.field = "numDocumentoIdentificacion" := by
  intro e he
  unfold docNumErrors at he
  split at he
  · simp only [List.mem_singleton] at he
    subst he; exact ⟨rfl, rfl⟩
  · rcases List.mem_append.1 he with h | h
    · rcases mem_errIf_iff.1 h with ⟨_, rfl⟩; exact ⟨rfl, rfl⟩
    · split at h
      · rcases List.mem_append.1 h with h | h
        · rcases mem_errIf_iff.1 h with ⟨_, rfl⟩; exact ⟨rfl, rfl⟩
        · split at h
          · rcases mem_errIf_iff.1 h with ⟨_, rfl⟩; exact ⟨rfl, rfl⟩
          · cases h
      · cases h

theorem ageBandErrors_prop (sc : String) (dt : JVal) (a : AgeVal) :
    ∀ e ∈ ageBandErrors sc dt a,
      e.severity = .error ∧ e.field = "tipoDocumentoIdentificacion" := by
  intro e he
  unfold ageBandErrors at he
  split_ifs at he
  case _ => rcases mem_errIf_iff.1 he with ⟨_, rfl⟩; exact ⟨rfl, rfl⟩
  case _ =>
    rcases List.mem_append.1 he with h | h <;>
      (rcases mem_errIf_iff.1 h with ⟨_, rfl⟩; exact ⟨rfl, rfl⟩)
  case _ => rcases mem_errIf_iff.1 he with ⟨_, rfl⟩; exact ⟨rfl, rfl⟩
  case _ => rcases mem_errIf_iff.1 he with ⟨_, rfl⟩; exact ⟨rfl, rfl⟩
  case _ => rcases mem_errIf_iff.1 he with ⟨_, rfl⟩; exact ⟨rfl, rfl⟩
  case _ => rcases mem_errIf_iff.1 he with ⟨_, rfl⟩; exact ⟨rfl, rfl⟩
  case _ => cases he

theorem ageBandErrors_nan (sc : String) (dt : JVal) :
    ageBandErrors sc dt .nan = [] := by
  unfold ageBandErrors
  split_ifs <;> simp [errIf, AgeVal.ltJ, AgeVal.geJ, AgeVal.gtJ, AgeVal.leJ]

theorem municipalityErrors_prop (sc : String) (u : JVal) :
    ∀ e ∈ municipalityErrors sc u,
      e.severity = .error ∧ e.field = "codMunicipioResidencia" := by
  intro e he
  unfold municipalityErrors at he
  split at he
  · split at he
    · simp only [List.mem_singleton] at he
      subst he; exact ⟨rfl, rfl⟩
    · rcases mem_errIf_iff.1 he with ⟨_, rfl⟩; exact ⟨rfl, rfl⟩
  · cases he

theorem transErrors_prop (t : JVal) :
    ∀ e ∈ transErrors t,
      e.scope = "Transaction"
        ∧ (e.field = "numDocumentoIdObligado" ∨ e.field = "numFactura" ∨ e.field = "tipoNota")
        ∧ (e.severity = .warning →
            e.field = "tipoNota" ∧ e.message = rsWarningMsg) := by
  intro e he
  simp only [transErrors, List.append_assoc] at he
  rcases List.mem_append.1 he with h | he
  · rcases mem_errIf_iff.1 h with ⟨_, rfl⟩
    exact ⟨rfl, Or.inl rfl, by intro h; cases h⟩
  rcases List.mem_append.1 he with h | he
  · rcases mem_errIf_iff.1 h with ⟨_, rfl⟩
    exact ⟨rfl, Or.inr (Or.inl rfl), by intro h; cases h⟩
  rcases mem_ite_lists he with ⟨_, h⟩ | ⟨_, h⟩
  · rcases List.mem_append.1 h with h | h
    · rcases mem_errIf_iff.1 h with ⟨_, rfl⟩
      exact ⟨rfl, Or.inr (Or.inr rfl), by intro h; cases h⟩
    · rcases mem_errIf_iff.1 h with ⟨_, rfl⟩
      exact ⟨rfl, Or.inr (Or.inr rfl), fun _ => ⟨rfl, rfl⟩⟩
  · cases h

theorem validateUser_error (env : DateEnv) (i : Nat) (u : JVal) :
    ∀ e ∈ validateUser env i u, e.severity = .error := by
  intro e he
  simp only [validateUser, List.append_assoc] at he
  rcases List.mem_append.1 he with h | he
  · rcases mem_errIf_iff.1 h with ⟨_, rfl⟩; rfl
  rcases List.mem_append.1 he with h | he
  · exact (docNumErrors_prop _ _ _ e h).1
  rcases List.mem_append.1 he with h | he
  · simp only [dobErrors] at h
    split at h
    · simp only [List.mem_singleton] at h; subst h; rfl
    · exact (ageBandErrors_prop _ _ _ e h).1
  rcases List.mem_append.1 he with h | he
  · rcases mem_errIf_iff.1 h with ⟨_, rfl⟩; rfl
  rcases List.mem_append.1 he with h | he
  · rcases mem_errIf_iff.1 h with ⟨_, rfl⟩; rfl
  rcases List.mem_append.1 he with h | he
  · exact (municipalityErrors_prop _ _ e h).1
  rcases List.mem_append.1 he with h | h
  · rcases mem_errIf_iff.1 h with ⟨_, rfl⟩; rfl
  · rcases mem_ite_lists h with ⟨_, h⟩ | ⟨_, h⟩
    · exact (validateServices_prop _ _ _ e h).1
    · cases h

theorem filter_eq_nil_of_ne {g : String} {l : List ValidationError}
    (h : ∀ e ∈ l, e.field ≠ g) : l.filter (fun e => e.field == g) = [] := by
  rw [List.filter_eq_nil_iff]
  intro a ha
  simp [h a ha]

theorem filter_eq_self_of_eq {g : String} {l : List ValidationError}
    (h : ∀ e ∈ l, e.field = g) : l.filter (fun e => e.field == g) = l := by
  rw [List.filter_eq_self]
  intro a ha
  simp [h a ha]

theorem validateUser_filter_tipoDoc (env : DateEnv) (i : Nat) (u : JVal)
    (hvalid : jsIncludes VALID_DOCUMENT_TYPES (u.get "tipoDocumentoIdentificacion") = true) :
    (validateUser env i u).filter (fun e => e.field == "tipoDocumentoIdentificacion")
      = if (calculateAge env (u.get "fechaNacimiento")).isNegOne then []
        else ageBandErrors (userScope u i) (u.get "tipoDocumentoIdentificacion")
               (calculateAge env (u.get "fechaNacimiento")) := by
  have hdoc : (docNumErrors (userScope u i) (u.get "tipoDocumentoIdentificacion")
      (u.get "numDocumentoIdentificacion")).filter
      (fun e => e.field == "tipoDocumentoIdentificacion") = [] :=
    filter_eq_nil_of_ne fun e he => by
      simp [(docNumErrors_prop (userScope u i) (u.get "tipoDocumentoIdentificacion")
        (u.get "numDocumentoIdentificacion") e he).2]
  have hmun : (municipalityErrors (userScope u i) u).filter
      (fun e => e.field == "tipoDocumentoIdentificacion") = [] :=
    filter_eq_nil_of_ne fun e he => by
      simp [(municipalityErrors_prop (userScope u i) u e he).2]
  have hsvc : (validateServices env (u.get "servicios") (userScope u i)).filter
      (fun e => e.field == "tipoDocumentoIdentificacion") = [] :=
    filter_eq_nil_of_ne fun e he =>
      (validateServices_prop env (u.get "servicios") (userScope u i) e he).2.1
  have hdob : (dobErrors env (userScope u i) u).filter
      (fun e => e.field == "tipoDocumentoIdentificacion")
      = if (calculateAge env (u.get "fechaNacimiento")).isNegOne then []
        else ageBandErrors (userScope u i) (u.get "tipoDocumentoIdentificacion")
               (calculateAge env (u.get "fechaNacimiento")) := by
    simp only [dobErrors]
    split
    · simp_all
    · apply filter_eq_self_of_eq
      intro e he
      exact (ageBandErrors_prop (userScope u i) (u.get "tipoDocumentoIdentificacion")
        (calculateAge env (u.get "fechaNacimiento")) e he).2
  simp only [validateUser, List.append_assoc, List.filter_append, hdoc, hmun, hdob]
  simp [errIf, hvalid, apply_ite (List.filter fun e : ValidationError => e.field == "tipoDocumentoIdentificacion"), hsvc]

theorem errIf_eq_nil_iff {b : Bool} {v : ValidationError} :
    errIf b v = [] ↔ b = false := by
  unfold errIf; split <;> simp_all

theorem dobErrors_prop (env : DateEnv) (sc : String) (u : JVal) :
    ∀ e ∈ dobErrors env sc u,
      e.severity = .error
        ∧ (e.field = "fechaNacimiento" ∨ e.field = "tipoDocumentoIdentificacion") := by
  intro e he
  simp only [dobErrors] at he
  split at he
  · simp only [List.mem_singleton] at he; subst he; exact ⟨rfl, Or.inl rfl⟩
  · exact ⟨(ageBandErrors_prop _ _ _ e he).1, Or.inr (ageBandErrors_prop _ _ _ e he).2⟩

theorem validateUser_filter_dob (env : DateEnv) (i : Nat) (u : JVal) :
    (validateUser env i u).filter (fun e => e.field == "fechaNacimiento")
      = if (calculateAge env (u.get "fechaNacimiento")).isNegOne then
          [⟨userScope u i, "fechaNacimiento", "Invalid or missing Date of Birth",
            u.get "fechaNacimiento", .error⟩]
        else [] := by
  have hdoc : (docNumErrors (userScope u i) (u.get "tipoDocumentoIdentificacion")
      (u.get "numDocumentoIdentificacion")).filter
      (fun e => e.field == "fechaNacimiento") = [] :=
    filter_eq_nil_of_ne fun e he => by
      simp [(docNumErrors_prop (userScope u i) (u.get "tipoDocumentoIdentificacion")
        (u.get "numDocumentoIdentificacion") e he).2]
  have hmun : (municipalityErrors (userScope u i) u).filter
      (fun e => e.field == "fechaNacimiento") = [] :=
    filter_eq_nil_of_ne fun e he => by
      simp [(municipalityErrors_prop (userScope u i) u e he).2]
  have hsvc : (validateServices env (u.get "servicios") (userScope u i)).filter
      (fun e => e.field == "fechaNacimiento") = [] :=
    filter_eq_nil_of_ne fun e he =>
      (validateServices_prop env (u.get "servicios") (userScope u i) e he).2.2.2
  have hdob : (dobErrors env (userScope u i) u).filter
      (fun e => e.field == "fechaNacimiento")
      = if (calculateAge env (u.get "fechaNacimiento")).isNegOne then
          [⟨userScope u i, "fechaNacimiento", "Invalid or missing Date of Birth",
            u.get "fechaNacimiento", .error⟩]
        else [] := by
    simp only [dobErrors]
    split
    · simp
    · apply filter_eq_nil_of_ne
      intro e he
      simp [(ageBandErrors_prop (userScope u i) (u.get "tipoDocumentoIdentificacion")
        (calculateAge env (u.get "fechaNacimiento")) e he).2]
  simp only [validateUser, List.append_assoc, List.filter_append, hdoc, hmun, hdob]
  simp [errIf, apply_ite (List.filter fun e : ValidationError => e.field == "fechaNacimiento"), hsvc]

/-- C2: for a user whose date of birth yields a well-defined (non-negative)
age `a`, the validator emits a finding on `tipoDocumentoIdentificacion`
(necessarily an age-band finding, the document type being valid) exactly
when `a` lies outside the band of the document type of the user:
CC needs `a ≥ 18`; TI needs `7 ≤ a < 19`; RC needs `a < 8`; CN needs
`a ≤ 3`; AS needs `a > 18`; MS needs `a ≤ 18`. -/
theorem age_band_rule (env : DateEnv) (i : Nat) (u : JVal) (dt : String) (a : Int)
    (hdt : u.get "tipoDocumentoIdentificacion" = .str dt)
    (hmem : dt ∈ ["CC", "TI", "RC", "CN", "AS", "MS"])
    (hage : calculateAge env (u.get "fechaNacimiento") = .int a)
    (ha : 0 ≤ a) :
    ((Validator.validateUser env i u).filter
        (fun e => e.field == "tipoDocumentoIdentificacion") ≠ []
      ↔ ((dt = "CC" ∧ a < 18) ∨ (dt = "TI" ∧ (a < 7 ∨ 19 ≤ a)) ∨ (dt = "RC" ∧ 8 ≤ a)
          ∨ (dt = "CN" ∧ 3 < a) ∨ (dt = "AS" ∧ a ≤ 18) ∨ (dt = "MS" ∧ 18 < a))) := by
  have hvalid : jsIncludes VALID_DOCUMENT_TYPES (u.get "tipoDocumentoIdentificacion") = true := by
    rw [hdt]
    simp only [List.mem_cons, List.not_mem_nil, or_false] at hmem
    rcases hmem with rfl | rfl | rfl | rfl | rfl | rfl <;> decide
  rw [validateUser_filter_tipoDoc env i u hvalid, hage]
  rw [if_neg (by simp [AgeVal.isNegOne]; omega)]
  simp only [List.mem_cons, List.not_mem_nil, or_false] at hmem
  rcases hmem with rfl | rfl | rfl | rfl | rfl | rfl <;>
    simp [ageBandErrors, hdt, isStrJ, errIf_eq_nil_iff, List.append_eq_nil,
      AgeVal.ltJ, AgeVal.geJ, AgeVal.gtJ, AgeVal.leJ] <;> omega

theorem validateUser_filter_muni (env : DateEnv) (i : Nat) (u : JVal) :
    (validateUser env i u).filter (fun e => e.field == "codMunicipioResidencia")
      = municipalityErrors (userScope u i) u := by
  have hdoc : (docNumErrors (userScope u i) (u.get "tipoDocumentoIdentificacion")
      (u.get "numDocumentoIdentificacion")).filter
      (fun e => e.field == "codMunicipioResidencia") = [] :=
    filter_eq_nil_of_ne fun e he => by
      simp [(docNumErrors_prop (userScope u i) (u.get "tipoDocumentoIdentificacion")
        (u.get "numDocumentoIdentificacion") e he).2]
  have hsvc : (validateServices env (u.get "servicios") (userScope u i)).filter
      (fun e => e.field == "codMunicipioResidencia") = [] :=
    filter_eq_nil_of_ne fun e he =>
      (validateServices_prop env (u.get "servicios") (userScope u i) e he).2.2.1
  have hdob : (dobErrors env (userScope u i) u).filter
      (fun e => e.field == "codMunicipioResidencia") = [] :=
    filter_eq_nil_of_ne fun e he => by
      rcases (dobErrors_prop env (userScope u i) u e he).2 with h | h <;> simp [h]
  have hmun : (municipalityErrors (userScope u i) u).filter
      (fun e => e.field == "codMunicipioResidencia")
      = municipalityErrors (userScope u i) u :=
    filter_eq_self_of_eq fun e he => (municipalityErrors_prop (userScope u i) u e he).2
  simp only [validateUser, List.append_assoc, List.filter_append, hdoc, hdob, hmun]
  simp [errIf, apply_ite (List.filter fun e : ValidationError => e.field == "codMunicipioResidencia"), hsvc]

/-- C7: with a domestic country of residence ("170") the validator demands
a municipality code and demands it be exactly 5 characters; any other
country of residence disables the municipality rule entirely. -/
theorem municipality_rule (env : DateEnv) (i : Nat) (u : JVal) :
    ((validateUser env i u).filter (fun e => e.field == "codMunicipioResidencia")
        = municipalityErrors (userScope u i) u)
    ∧ (¬ isStrJ (u.get "codPaisResidencia") "170" = true →
        municipalityErrors (userScope u i) u = [])
    ∧ (isStrJ (u.get "codPaisResidencia") "170" = true →
        ¬ (u.get "codMunicipioResidencia").truthy = true →
        municipalityErrors (userScope u i) u
          = [⟨userScope u i, "codMunicipioResidencia", "Municipality required for Colombia",
              u.get "codMunicipioResidencia", .error⟩])
    ∧ (∀ s, isStrJ (u.get "codPaisResidencia") "170" = true →
        u.get "codMunicipioResidencia" = .str s → s ≠ "" →
        (municipalityErrors (userScope u i) u = [] ↔ s.length = 5)) := by
  refine ⟨validateUser_filter_muni env i u, ?_, ?_, ?_⟩
  · intro h
    simp [municipalityErrors, h]
  · intro h1 h2
    simp [municipalityErrors, h1, h2]
  · intro s h1 h2 h3
    simp [municipalityErrors, h1, h2, JVal.truthy, h3, errIf_eq_nil_iff,
      jsLengthNe, JVal.length?]

/-- C10 (amended): a non-empty unparseable date of birth silently passes
(NaN fails every band comparison and is not `-1`), so no finding on
`fechaNacimiento` and no age-band finding is emitted; the
"Invalid or missing Date of Birth" finding appears exactly when
`calculateAge` returns `-1`, which happens for a falsy value and also for
a parseable date lying less than one 365.25-day year in the future. -/
theorem dob_invalid_only_minus_one (env : DateEnv) (i : Nat) (u : JVal) :
    (∀ s, u.get "fechaNacimiento" = .str s → s ≠ "" → env.parseMs s = none →
      (validateUser env i u).filter (fun e => e.field == "fechaNacimiento") = []
        ∧ dobErrors env (userScope u i) u = [])
    ∧ ((validateUser env i u).filter (fun e => e.field == "fechaNacimiento") ≠ []
        ↔ calculateAge env (u.get "fechaNacimiento") = .int (-1))
    ∧ (∀ s t, u.get "fechaNacimiento" = .str s → s ≠ "" → env.parseMs s = some t →
        (calculateAge env (u.get "fechaNacimiento") = .int (-1)
          ↔ (env.nowMs - t < 0 ∧ -msPerYear ≤ env.nowMs - t))) := by
  refine ⟨?_, ?_, ?_⟩
  · intro s hs hne hparse
    have hnan : calculateAge env (u.get "fechaNacimiento") = .nan := by
      rw [hs]
      simp [calculateAge, JVal.truthy, hne, DateEnv.valueMs, hparse]
    constructor
    · rw [validateUser_filter_dob env i u, hnan]
      rfl
    · simp only [dobErrors, hnan]
      rw [if_neg (by simp [AgeVal.isNegOne])]
      exact ageBandErrors_nan _ _
  · rw [validateUser_filter_dob env i u]
    cases hca : calculateAge env (u.get "fechaNacimiento") with
    | int n =>
        by_cases hn : n = -1 <;>
          simp [AgeVal.isNegOne, hn]
    | nan => simp [AgeVal.isNegOne]
  · intro s t hs hne hparse
    rw [hs]
    simp only [calculateAge, JVal.truthy, hne, DateEnv.valueMs, hparse]
    rw [if_neg (by simp [hne])]
    rw [AgeVal.int.injEq]
    rw [Int.fdiv_eq_ediv _ (by norm_num [msPerYear])]
    unfold msPerYear
    omega

theorem mem_flatten_enum {α : Type} {e : ValidationError} {xs : List α}
    {f : Nat → α → List ValidationError}
    (h : e ∈ (xs.enum.map fun p => f p.1 p.2).flatten) :
    ∃ i x, e ∈ f i x := by
  simp only [List.mem_flatten, List.mem_map] at h
  obtain ⟨l, ⟨⟨i, x⟩, hmem, rfl⟩, hel⟩ := h
  exact ⟨i, x, hel⟩

/-- C4 (amended): when the invoice number is falsy and `tipoNota` is
non-null and not the string "RS", the validator emits the warning-severity
finding on `tipoNota`; and this rule is the only source of warning
severity — every other finding of `validateRipsJson` carries severity
`error`.  (When `tipoNota` is null the whole block is skipped and no
warning is emitted.) -/
theorem tipoNota_warning_rule (env : DateEnv) :
    (∀ doc : JVal, (doc.get "transaccion").truthy = true →
      ¬ ((doc.get "transaccion").get "numFactura").truthy = true →
      ¬ isNullJ ((doc.get "transaccion").get "tipoNota") = true →
      ¬ isStrJ ((doc.get "transaccion").get "tipoNota") "RS" = true →
      (⟨"Transaction", "tipoNota", rsWarningMsg,
        (doc.get "transaccion").get "tipoNota", .warning⟩ : ValidationError)
        ∈ validateRipsJson env doc)
    ∧ (∀ doc : JVal, ∀ e ∈ validateRipsJson env doc, e.severity = .warning →
        e.scope = "Transaction" ∧ e.field = "tipoNota" ∧ e.message = rsWarningMsg) := by
  constructor
  · intro doc h1 h2 h3 h4
    simp only [validateRipsJson]
    rw [if_neg (by simp [h1])]
    apply List.mem_append.2
    apply Or.inl
    simp only [transErrors, List.append_assoc]
    apply List.mem_append.2
    apply Or.inr
    apply List.mem_append.2
    apply Or.inr
    rw [if_pos (by simp [h3])]
    apply List.mem_append.2
    apply Or.inr
    rw [mem_errIf_iff]
    exact ⟨by simp [h2, h4], rfl⟩
  · intro doc e he hw
    simp only [validateRipsJson] at he
    split at he
    · simp only [List.mem_singleton] at he; subst he; cases hw
    · rcases List.mem_append.1 he with h | h
      · exact ⟨(transErrors_prop _ e h).1, (transErrors_prop _ e h).2.2 hw⟩
      · split at h
        · obtain ⟨i, x, hm⟩ := mem_flatten_enum h
          exact absurd hw (by simp [validateUser_error env i x e hm])
        · simp only [List.mem_singleton] at h; subst h; cases hw

/-- C5: a falsy `transaccion` short-circuits with exactly the one
structural finding; a truthy `transaccion` with a non-array `usuarios`
stops after the transaction-level checks, adds exactly one finding on
`usuarios`, and performs no user-level or service-level check (every
returned finding has scope "Structure" or "Transaction"). -/
theorem structural_gate (env : DateEnv) (doc : JVal) :
    (¬ (doc.get "transaccion").truthy = true →
      validateRipsJson env doc
        = [⟨"Structure", "transaccion", "Missing transaction object", .null, .error⟩])
    ∧ ((doc.get "transaccion").truthy = true →
       ((doc.get "transaccion").get "usuarios").isArray = false →
       validateRipsJson env doc
         = transErrors (doc.get "transaccion")
             ++ [⟨"Transaction", "usuarios", "Must be an array",
                  (doc.get "transaccion").get "usuarios", .error⟩]
         ∧ (validateRipsJson env doc).countP (fun e => e.field == "usuarios") = 1
         ∧ ∀ e ∈ validateRipsJson env doc,
             e.scope = "Structure" ∨ e.scope = "Transaction") := by
  constructor
  · intro h
    simp [validateRipsJson, h]
  · intro h1 h2
    have hred : validateRipsJson env doc
        = transErrors (doc.get "transaccion")
            ++ [⟨"Transaction", "usuarios", "Must be an array",
                 (doc.get "transaccion").get "usuarios", .error⟩] := by
      simp only [validateRipsJson]
      rw [if_neg (by simp [h1])]
      cases hu : (doc.get "transaccion").get "usuarios" <;> simp_all [JVal.isArray]
    refine ⟨hred, ?_, ?_⟩
    · rw [hred, List.countP_append]
      have hz : (transErrors (doc.get "transaccion")).countP
          (fun e => e.field == "usuarios") = 0 := by
        rw [List.countP_eq_zero]
        intro e he
        rcases (transErrors_prop _ e he).2.1 with h | h | h <;> simp [h]
      rw [hz]
      rfl
    · intro e he
      rw [hred] at he
      rcases List.mem_append.1 he with h | h
      · exact Or.inr (transErrors_prop _ e h).1
      · simp only [List.mem_singleton] at h; subst h; exact Or.inr rfl

/-- C9: validation never mutates the document.  In the state-threading
rendering of `validateRipsJson`, where the document is passed along the
statement sequence of the source, the document comes back unchanged while the
findings agree with the pure function. -/
theorem validate_no_mutation (env : DateEnv) (doc : JVal) :
    (validateRipsJsonSt env doc).2 = doc
      ∧ (validateRipsJsonSt env doc).1 = validateRipsJson env doc := by
  by_cases h : (doc.get "transaccion").truthy = true
  · simp only [validateRipsJsonSt, validateRipsJson, h]
    cases hu : (doc.get "transaccion").get "usuarios" <;> simp
  · simp [validateRipsJsonSt, validateRipsJson, h]

theorem age_band_rule_witness :
    (validateUser wEnv17 0 wUserCC).filter
      (fun e => e.field == "tipoDocumentoIdentificacion") ≠ [] :=
  (age_band_rule wEnv17 0 wUserCC "CC" 17 rfl (by decide) rfl (by decide)).mpr
    (Or.inl ⟨rfl, by decide⟩)

theorem municipality_rule_witness :
    municipalityErrors (userScope wUserMuni 0) wUserMuni
      = [⟨userScope wUserMuni 0, "codMunicipioResidencia",
          "Municipality required for Colombia", JVal.undefined, .error⟩] :=
  (municipality_rule nanDateEnv 0 wUserMuni).2.2.1 (by decide) (by decide)

theorem dob_invalid_witness :
    (validateUser nanDateEnv 0 wUserBadDob).filter
        (fun e => e.field == "fechaNacimiento") = []
      ∧ dobErrors nanDateEnv (userScope wUserBadDob 0) wUserBadDob = [] :=
  (dob_invalid_only_minus_one nanDateEnv 0 wUserBadDob).1 "not-a-date" rfl (by decide) rfl

/-- C10 counterexample: a non-empty, PARSEABLE date of birth less than one
365.25-day year in the future makes `calculateAge` yield exactly `-1`, so
the "Invalid or missing Date of Birth" finding fires even though
`fechaNacimiento` is neither empty nor absent. -/
theorem dob_future_counterexample :
    futUser.get "fechaNacimiento" = .str "2026-12-01"
    ∧ ("2026-12-01" : String) ≠ ""
    ∧ futEnv.parseMs "2026-12-01" = some 1764547200000
    ∧ (validateUser futEnv 0 futUser).filter
        (fun e => e.field == "fechaNacimiento")
      = [⟨userScope futUser 0, "fechaNacimiento",
          "Invalid or missing Date of Birth", .str "2026-12-01", .error⟩] :=
  ⟨rfl, by decide, rfl, rfl⟩

theorem tipoNota_warning_witness :
    (⟨"Transaction", "tipoNota", rsWarningMsg,
      (warnDoc.get "transaccion").get "tipoNota", .warning⟩ : ValidationError)
      ∈ validateRipsJson nanDateEnv warnDoc :=
  (tipoNota_warning_rule nanDateEnv).1 warnDoc rfl (by decide) (by decide) (by decide)

/-- C4 counterexample: with an empty invoice number and a NULL `tipoNota`
(which is not "RS"), the validator emits no finding at all — the warning
block only runs for non-null `tipoNota`. -/
theorem tipoNota_warning_counterexample :
    ¬ ((nullNoteDoc.get "transaccion").get "numFactura").truthy = true
    ∧ ¬ isStrJ ((nullNoteDoc.get "transaccion").get "tipoNota") "RS" = true
    ∧ validateRipsJson nanDateEnv nullNoteDoc = [] :=
  ⟨by decide, by decide, rfl⟩

theorem structural_gate_witness :
    validateRipsJson nanDateEnv noTransDoc
      = [⟨"Structure", "transaccion", "Missing transaction object", .null, .error⟩]
    ∧ validateRipsJson nanDateEnv badUsersDoc
      = transErrors (badUsersDoc.get "transaccion")
          ++ [⟨"Transaction", "usuarios", "Must be an array", .str "nope", .error⟩] :=
  ⟨(structural_gate nanDateEnv noTransDoc).1 (by decide),
   ((structural_gate nanDateEnv badUsersDoc).2 rfl (by decide)).1⟩

end Validator

namespace Generator

theorem processRows_eq_map (env : GenEnv) (cs : List (String × SchemaNode)) (path : String)
    (mapping : Mapping) (ctx : Row) (gp : GlobalParams) :
    ∀ rows : List Row, processRows env cs path mapping ctx gp rows
      = rows.map fun row => .obj (processChildren env cs path mapping (mergeCtx ctx row) gp) := by
  intro rows
  induction rows with
  | nil => simp [processRows]
  | cons row rest ih => simp [processRows, ih]

/-- C1: an array schema node resolves to the empty sequence when its path
has no mapping entry, or an entry that is not a `list` binding with a
table; when the entry is a proper list binding and the fetch of the
assembled query returns `rows`, the node resolves to exactly one object
per row, in fetch order, each obtained by recursing into all declared
children under the merged context (row fields shadowing the parent
context). -/
theorem array_node_semantics (env : GenEnv) (cs : List (String × SchemaNode)) (path : String)
    (mapping : Mapping) (ctx : Row) (gp : GlobalParams) :
    (mapping path = none → processNode env (.arr cs) path mapping ctx gp = .arr [])
    ∧ (∀ config : MappingConfig, mapping path = some config →
        (config.ctype ≠ "list" ∨ config.table = "") →
        processNode env (.arr cs) path mapping ctx gp = .arr [])
    ∧ (∀ (config : MappingConfig) (rows : List Row),
        mapping path = some config → config.ctype = "list" → config.table ≠ "" →
        env.fetch (buildQuery env config.table ctx gp) = some rows →
        processNode env (.arr cs) path mapping ctx gp
          = JVal.arr (rows.map fun row =>
              JVal.obj (processChildren env cs path mapping (mergeCtx ctx row) gp))
          ∧ (rows.map fun row =>
              JVal.obj (processChildren env cs path mapping (mergeCtx ctx row) gp)).length
            = rows.length) := by
  refine ⟨?_, ?_, ?_⟩
  · intro h
    simp [processNode, h]
  · intro config h hcfg
    simp only [processNode, h]
    rw [if_pos hcfg]
  · intro config rows h hctype htable hfetch
    constructor
    · simp only [processNode, h]
      rw [if_neg (by simp [hctype, htable])]
      simp [hfetch, processRows_eq_map]
    · simp

theorem processNode_conforms (env : GenEnv) :
    ∀ (node : SchemaNode) (path : String) (mapping : Mapping) (ctx : Row) (gp : GlobalParams),
      Conforms node (processNode env node path mapping ctx gp) := by
  refine @processNode.induct env
    (fun node path mapping ctx gp => Conforms node (processNode env node path mapping ctx gp))
    (fun children path mapping ctx gp rows =>
      ItemsConform children (processRows env children path mapping ctx gp rows))
    (fun children path mapping ctx gp =>
      FieldsConform children (processChildren env children path mapping ctx gp))
    ?_ ?_ ?_ ?_ ?_ ?_ ?_ ?_ ?_ ?_ ?_
  · intro path mapping ctx gp children ih
    simp only [processNode]
    exact Conforms.root children _ ih
  · intro path mapping ctx gp children ih
    simp only [processNode]
    exact Conforms.obj children _ ih
  · intro path mapping ctx gp children h
    simp only [processNode, h]
    exact Conforms.arr children [] (ItemsConform.nil children)
  · intro path mapping ctx gp children config h hcfg
    simp only [processNode, h]
    rw [if_pos hcfg]
    exact Conforms.arr children [] (ItemsConform.nil children)
  · intro path mapping ctx gp children config h hcfg hfetch
    simp only [processNode, h]
    rw [if_neg hcfg]
    simp only [hfetch]
    exact Conforms.arr children [] (ItemsConform.nil children)
  · intro path mapping ctx gp children config h hcfg rows hfetch ih
    simp only [processNode, h]
    rw [if_neg hcfg]
    simp only [hfetch]
    exact Conforms.arr children _ ih
  · intro path mapping ctx gp
    exact Conforms.leaf _
  · intro children path mapping ctx gp
    simp only [processRows]
    exact ItemsConform.nil children
  · intro children path mapping ctx gp row rest ih1 ih2
    simp only [processRows]
    exact ItemsConform.cons children _ _ ih1 ih2
  · intro path mapping ctx gp
    simp only [processChildren]
    exact FieldsConform.nil
  · intro path mapping ctx gp key child rest ih1 ih2
    simp only [processChildren]
    exact FieldsConform.cons key child _ rest _ ih1 ih2

theorem FieldsConform_keys :
    ∀ (cs : List (String × SchemaNode)) (fields : List (String × JVal)),
      FieldsConform cs fields → fields.map Prod.fst = cs.map Prod.fst := by
  intro cs
  induction cs with
  | nil =>
      intro fields h
      cases h
      rfl
  | cons hd tl ih =>
      intro fields h
      cases h with
      | cons k c v cs fields hcv htl => simp [ih _ htl]

/-- C8: every interpreter output conforms to its schema node — inside its
enclosing object (or array item) every declared key is present, in
declaration order; and an unmapped leaf path resolves to null, never to a
missing key. -/
theorem schema_keys_always_present :
    (∀ (env : GenEnv) (node : SchemaNode) (path : String) (mapping : Mapping)
        (ctx : Row) (gp : GlobalParams),
        Conforms node (processNode env node path mapping ctx gp))
    ∧ (∀ (cs : List (String × SchemaNode)) (fields : List (String × JVal)),
        FieldsConform cs fields → fields.map Prod.fst = cs.map Prod.fst)
    ∧ (∀ (env : GenEnv) (path : String) (mapping : Mapping) (ctx : Row) (gp : GlobalParams),
        mapping path = none → processNode env .leaf path mapping ctx gp = .null) := by
  refine ⟨fun env => processNode_conforms env, FieldsConform_keys, ?_⟩
  intro env path mapping ctx gp h
  simp [processNode, processLeaf, h]

end Generator

namespace Pipeline

theorem servicesLoop_consultas_length (env : PipeEnv) (facEin : String) :
    ∀ (encs : List Encounter) (cs : List Consulta) (ps : List Procedimiento)
      (ms : List Medicamento),
      ((servicesLoop env facEin encs cs ps ms).1).length
        = cs.length + (encs.countP fun e => optIntTruthy e.encounter) := by
  intro encs
  induction encs with
  | nil =>
      intro cs ps ms
      simp [servicesLoop]
  | cons enc rest ih =>
      intro cs ps ms
      simp only [servicesLoop]
      cases h : enc.encounter with
      | none => simp [ih, List.countP_cons, optIntTruthy, h]
      | some n =>
          dsimp only
          by_cases hn : n = 0
          · subst hn
            simp [ih, List.countP_cons, optIntTruthy, h]
          · rw [if_neg hn, ih]
            simp only [List.length_append, List.length_singleton,
              List.countP_cons, optIntTruthy, h]
            simp [hn]
            omega

theorem count_resolved (encsList : List Encounter) (ids : List Int) (p : Encounter → Bool) :
    ((ids.filterMap (encounterMapGet encsList)).countP p)
      = ids.countP (fun id =>
          match encounterMapGet encsList id with
          | some e => p e
          | none => false) := by
  induction ids with
  | nil => rfl
  | cons id rest ih =>
      simp only [List.filterMap_cons]
      cases h : encounterMapGet encsList id <;> simp [List.countP_cons, h, ih]

/-- C3 (amended): each emitted user carries exactly one consultation per
selected encounter id that resolves to a fetched encounter with a truthy
encounter number; ids that resolve to nothing, or to an encounter whose
`encounter` number is null/0, contribute none. -/
theorem consultas_count (env : PipeEnv) (si no : String) (sel : Selection) (k : Nat)
    (u : Usuario) (h : buildUser env si no sel k = some u) :
    u.servicios.consultas.length
      = (sel.encounterIds.countP fun id =>
          match encounterMapGet env.allEncounters id with
          | some enc => optIntTruthy enc.encounter
          | none => false) := by
  simp only [buildUser] at h
  cases hp : patientMapGet env.patients sel.patientId with
  | none => rw [hp] at h; cases h
  | some patient =>
      rw [hp] at h
      simp only at h
      split at h
      · cases h
      · rw [Option.some.injEq] at h
        subst h
        simp only
        rw [servicesLoop_consultas_length]
        rw [count_resolved env.allEncounters sel.encounterIds
          (fun e => optIntTruthy e.encounter)]
        simp

theorem consultas_count_witness :
    ((buildUser c3Env "SI" "NO" c3Sel 1).getD dummyUsuario).servicios.consultas.length
      = (c3Sel.encounterIds.countP fun id =>
          match encounterMapGet c3Env.allEncounters id with
          | some enc => optIntTruthy enc.encounter
          | none => false) :=
  consultas_count c3Env "SI" "NO" c3Sel 1 _ rfl

/-- C3 counterexample: the selection names two encounter ids but only one
resolves, so the emitted user holds one consultation, not two — the
per-selected-encounter synthesis is not unconditional. -/
theorem consultas_count_counterexample :
    (generateUsuarios c3Env [c3Sel]).map (fun u => u.servicios.consultas.length) = [1]
    ∧ c3Sel.encounterIds.length = 2
    ∧ (1 : Nat) ≠ 2 :=
  ⟨rfl, rfl, by decide⟩

theorem computeIncapacidad_any (encs : List Encounter) (opts : List BillingOption)
    (si no : String) :
    ∀ ids : List Int, computeIncapacidad encs opts si no ids
      = if ids.any (fun id =>
            match encounterMapGet encs id with
            | some enc =>
                match enc.encounter with
                | some n => n ≠ 0 && decide (billingMapGet opts n = some (some 1))
                | none => false
            | none => false)
        then si else no := by
  intro ids
  induction ids with
  | nil => simp [computeIncapacidad]
  | cons id rest ih =>
      cases h : encounterMapGet encs id with
      | none => simp [computeIncapacidad, List.any_cons, h, ih]
      | some enc =>
          cases he : enc.encounter with
          | none => simp [computeIncapacidad, List.any_cons, h, he, ih]
          | some n =>
              by_cases hn : n = 0
              · simp [computeIncapacidad, List.any_cons, h, he, hn, ih]
              · by_cases hb : billingMapGet opts n = some (some 1)
                · simp [computeIncapacidad, List.any_cons, h, he, hn, hb]
                · simp [computeIncapacidad, List.any_cons, h, he, hn, hb, ih]

/-- C6 (amended): the `incapacidad` of an emitted user equals the SI code
exactly when some selected encounter resolves to a truthy encounter number
whose billing-map entry — the LAST fetched billing-option row for that
encounter, since the map is built by successive `set` calls — has
`is_unable_to_work = 1`; otherwise it is the NO code.  The SI/NO codes are
read from the `RIPSIncapacidad` reference rows, and when the table is
empty it is first seeded with exactly the two default rows
(SI/extraI "1" and NO/extraI "0"). -/
theorem incapacidad_rule (env : PipeEnv) (sel : Selection) (k : Nat) (u : Usuario) :
    (buildUser env
        (siOptionOf (getRipIncapacidades (ensureRipsIncapacidadOptions env.localDb)))
        (noOptionOf (getRipIncapacidades (ensureRipsIncapacidadOptions env.localDb)))
        sel k = some u →
      (u.incapacidad
        = if sel.encounterIds.any (fun id =>
              match encounterMapGet env.allEncounters id with
              | some enc =>
                  match enc.encounter with
                  | some n => n ≠ 0 && decide (billingMapGet env.billingOptions n = some (some 1))
                  | none => false
              | none => false)
          then siOptionOf (getRipIncapacidades (ensureRipsIncapacidadOptions env.localDb))
          else noOptionOf (getRipIncapacidades (ensureRipsIncapacidadOptions env.localDb)))
      ∧ (siOptionOf (getRipIncapacidades (ensureRipsIncapacidadOptions env.localDb))
            ≠ noOptionOf (getRipIncapacidades (ensureRipsIncapacidadOptions env.localDb)) →
          (u.incapacidad
              = siOptionOf (getRipIncapacidades (ensureRipsIncapacidadOptions env.localDb))
            ↔ sel.encounterIds.any (fun id =>
                match encounterMapGet env.allEncounters id with
                | some enc =>
                    match enc.encounter with
                    | some n => n ≠ 0 && decide (billingMapGet env.billingOptions n = some (some 1))
                    | none => false
                | none => false) = true)))
    ∧ ((env.localDb.filter fun r => r.tableName = "RIPSIncapacidad") = [] →
        ensureRipsIncapacidadOptions env.localDb
          = env.localDb
            ++ [{ tableName := "RIPSIncapacidad", codigo := "SI", nombre := "Si",
                  extraI := some "1", habilitado := true, externalId := some 1 },
                { tableName := "RIPSIncapacidad", codigo := "NO", nombre := "No",
                  extraI := some "0", habilitado := true, externalId := some 2 }])
    ∧ ((env.localDb.filter fun r => r.tableName = "RIPSIncapacidad") ≠ [] →
        ensureRipsIncapacidadOptions env.localDb = env.localDb) := by
  refine ⟨?_, ?_, ?_⟩
  · intro h
    have hinc : u.incapacidad
        = computeIncapacidad env.allEncounters env.billingOptions
            (siOptionOf (getRipIncapacidades (ensureRipsIncapacidadOptions env.localDb)))
            (noOptionOf (getRipIncapacidades (ensureRipsIncapacidadOptions env.localDb)))
            sel.encounterIds := by
      simp only [buildUser] at h
      cases hp : patientMapGet env.patients sel.patientId with
      | none => rw [hp] at h; cases h
      | some patient =>
          rw [hp] at h
          simp only at h
          split at h
          · cases h
          · rw [Option.some.injEq] at h
            subst h
            rfl
    rw [hinc, computeIncapacidad_any]
    constructor
    · rfl
    · intro hne
      split
      · rename_i hany
        exact ⟨fun _ => hany, fun _ => rfl⟩
      · rename_i hany
        exact ⟨fun h3 => absurd h3.symm hne, fun h3 => absurd h3 hany⟩
  · intro h
    simp [ensureRipsIncapacidadOptions, h]
  · intro h
    rw [ensureRipsIncapacidadOptions, if_neg (by simp [h])]

theorem incapacidad_rule_witness :
    ensureRipsIncapacidadOptions c6Env.localDb
      = [{ tableName := "RIPSIncapacidad", codigo := "SI", nombre := "Si",
           extraI := some "1", habilitado := true, externalId := some 1 },
         { tableName := "RIPSIncapacidad", codigo := "NO", nombre := "No",
           extraI := some "0", habilitado := true, externalId := some 2 }]
    ∧ ((buildUser c6Env
          (siOptionOf (getRipIncapacidades (ensureRipsIncapacidadOptions c6Env.localDb)))
          (noOptionOf (getRipIncapacidades (ensureRipsIncapacidadOptions c6Env.localDb)))
          c6Sel 1).getD dummyUsuario).incapacidad = "SI" := by
  constructor
  · exact (incapacidad_rule c6Env c6Sel 1 dummyUsuario).2.1 rfl
  · have h := ((incapacidad_rule c6Env c6Sel 1
      ((buildUser c6Env
          (siOptionOf (getRipIncapacidades (ensureRipsIncapacidadOptions c6Env.localDb)))
          (noOptionOf (getRipIncapacidades (ensureRipsIncapacidadOptions c6Env.localDb)))
          c6Sel 1).getD dummyUsuario)).1 rfl).1
    rw [h]
    rfl

/-- C6 counterexample: encounter 10 carries TWO billing-option rows, the
first affirmative and the second not; the billing map keeps the last row,
so the incapacidad of the emitted user is NO even though at least one billing
option of that encounter has `is_unable_to_work = 1`. -/
theorem incapacidad_rule_counterexample :
    (generateUsuarios c6DupEnv [c6Sel]).map (fun u => u.incapacidad) = ["NO"]
    ∧ c6DupEnv.billingOptions.any
        (fun o => o.encounter == some 10 && o.is_unable_to_work == some 1) = true
    ∧ encounterMapGet c6DupEnv.allEncounters 1 = some { id := 1, encounter := some 10 }
    ∧ siOptionOf (getRipIncapacidades (ensureRipsIncapacidadOptions c6DupEnv.localDb)) = "SI"
    ∧ ("NO" : String) ≠ "SI" :=
  ⟨rfl, rfl, rfl, rfl, by decide⟩

end Pipeline

namespace Generator

theorem array_node_semantics_witness :
    processNode wGenEnv (.arr [("pid", SchemaNode.leaf)]) "items" wMapping [] ⟨"", ""⟩
      = JVal.arr [JVal.obj [("pid", JVal.num 7)], JVal.obj [("pid", JVal.num 8)]] := by
  have h := ((array_node_semantics wGenEnv [("pid", SchemaNode.leaf)] "items" wMapping [] ⟨"", ""⟩).2.2
    { ctype := "list", table := "t" } [[("pid", JVal.num 7)], [("pid", JVal.num 8)]]
    rfl rfl (by decide) rfl).1
  rw [h]
  simp [processNode, processChildren, processLeaf, wMapping, childPath, rowGet, mergeCtx]

theorem schema_keys_always_present_witness :
    Conforms ripsSchema (processNode wGenEnv ripsSchema "" (fun _ => none) [] ⟨"", ""⟩)
    ∧ processNode wGenEnv SchemaNode.leaf "transaccion.numFactura" (fun _ => none) [] ⟨"", ""⟩
        = JVal.null :=
  ⟨schema_keys_always_present.1 wGenEnv ripsSchema "" (fun _ => none) [] ⟨"", ""⟩,
   schema_keys_always_present.2.2 wGenEnv "transaccion.numFactura" (fun _ => none) [] ⟨"", ""⟩ rfl⟩

end Generator
